import Mathlib

/-!
# PostureGuard front end: sampling loop, detection client, overlay and mirror

A shallow embedding of the stateful logic of

* `src/frontend/src/components/PostureDetector.jsx` (tick loop, single-flight
  detection request, session statistics, failure classification),
* `src/frontend/src/components/PopupOverlay.jsx` (drag clamp, picture-in-picture mirror),
* `src/frontend/src/App.jsx` (the popup toggle),

followed by theorems about it.  React state cells and refs become fields of a
record, callbacks become functions on that record, and the browser (animation
frames, the network, the pointer) is an explicit stream of events.
-/

namespace PostureGuard

/-! ## PostureDetector.jsx : data -/

/-- The `detectionStats` state cell (PostureDetector.jsx lines 16-21). -/
structure DetectionStats where
  totalDetections : Nat
  goodPostureCount : Nat
  badPostureCount : Nat
  currentStatus : String
deriving DecidableEq, Repr

/-- Initial value of `detectionStats`. -/
def initialStats : DetectionStats :=
  { totalDetections := 0, goodPostureCount := 0, badPostureCount := 0, currentStatus := "unknown" }

/-- The `lastDetection` state cell once set (lines 47-51).  A detection is represented
by its `confidence`. -/
structure LastDetection where
  status : String
  detections : Option (List Rat)
  confidence : Rat
deriving DecidableEq, Repr

/-- The body `response.data` of a resolved `/detect` request. -/
structure DetectData where
  success : Bool
  overall_status : String
  detections : Option (List Rat)
  timestamp : String
  error : Option String
deriving DecidableEq, Repr

/-- The fields of a rejected request's error that the handler reads:
`err.code`, `err.message` and `err.response?.data?.error`. -/
structure RequestError where
  code : Option String
  message : String
  responseError : Option String
deriving DecidableEq, Repr

/-- How an outstanding `axios.post` settles. -/
inductive Outcome where
  | resolved (data : DetectData)
  | rejected (err : RequestError)
deriving DecidableEq, Repr

/-- The argument handed to the `onDetectionResult` prop (lines 61-65). -/
structure DetectionResult where
  status : String
  detections : Option (List Rat)
  timestamp : String
deriving DecidableEq, Repr

/-- What `webcamRef.current` offers at a tick: `none` when the ref is empty, otherwise
the value returned by `getScreenshot()` (`none` for `null`). -/
abbrev Webcam := Option (Option String)

/-- One mounted `PostureDetector`: its props, state cells and refs, the part of the
browser it talks to (`pendingFrames`, `nextFrameId`, `outstanding`) and two
observation fields (`sampleTicks`, `reported`). -/
structure Detector where
  /-- prop `isActive` -/
  isActive : Bool
  /-- prop `onDetectionResult` is provided -/
  hasOnDetectionResult : Bool
  isLoading : Bool
  error : Option String
  detectionStats : DetectionStats
  frameSkip : Nat
  currentFrame : Nat
  lastDetection : Option LastDetection
  /-- `frameCountRef.current` -/
  frameCountRef : Nat
  /-- `isProcessingRef.current` -/
  isProcessingRef : Bool
  /-- `animationRef.current` -/
  animationRef : Option Nat
  /-- animation-frame callbacks the browser still holds: handle and the `frameSkip`
  captured by that `processFrame` closure -/
  pendingFrames : List (Nat × Nat)
  /-- handle the next `requestAnimationFrame` returns -/
  nextFrameId : Nat
  /-- `/detect` requests issued and not yet settled -/
  outstanding : Nat
  /-- values of `frameCountRef.current` at which `captureAndDetect` was called, newest first -/
  sampleTicks : List Nat
  /-- arguments `onDetectionResult` was called with, newest first -/
  reported : List DetectionResult
deriving DecidableEq, Repr

/-- The component right after mounting in `App` (`isDetectionActive` starts `false`,
no `onDetectionResult` is passed): the effect ran once and scheduled nothing. -/
def mount : Detector :=
  { isActive := false, hasOnDetectionResult := false, isLoading := false, error := none,
    detectionStats := initialStats, frameSkip := 30, currentFrame := 0, lastDetection := none,
    frameCountRef := 0, isProcessingRef := false, animationRef := none,
    pendingFrames := [], nextFrameId := 1, outstanding := 0, sampleTicks := [], reported := [] }

/-! ## PostureDetector.jsx : captureAndDetect -/

/-- The updater passed to `setDetectionStats` (lines 53-58). -/
def updateStats (status : String) (prev : DetectionStats) : DetectionStats :=
  { totalDetections := prev.totalDetections + 1,
    goodPostureCount := prev.goodPostureCount + (if status = "good" then 1 else 0),
    badPostureCount := prev.badPostureCount + (if status = "bad" then 1 else 0),
    currentStatus := status }

/-- Whether `pat` starts the character list `s`. -/
def startsWithChars : List Char → List Char → Bool
  | [], _ => true
  | _ :: _, [] => false
  | p :: ps, c :: cs => p == c && startsWithChars ps cs

/-- Whether `pat` occurs somewhere in the character list `s`. -/
def includesChars (pat : List Char) : List Char → Bool
  | [] => pat.isEmpty
  | c :: cs => startsWithChars pat (c :: cs) || includesChars pat cs

/-- JavaScript `s.includes(pat)`. -/
def includes (s pat : String) : Bool := includesChars pat.data s.data

/-- Message set when the backend cannot be reached (line 72). -/
def cannotConnectMessage : String :=
  "Cannot connect to backend. Make sure Flask server is running on port 5000."

/-- Message set on a request timeout (line 74). -/
def timeoutMessage : String := "Detection timeout - server is processing slowly"

/-- Fallback message (line 76). -/
def detectionFailedMessage : String := "Detection failed"

/-- The message the `catch` block hands to `setError` (lines 71-77). -/
def failureMessage (err : RequestError) : String :=
  if err.code = some "ECONNREFUSED" || includes err.message "Network Error" then
    cannotConnectMessage
  else if err.code = some "ECONNABORTED" then
    timeoutMessage
  else
    match err.responseError with
    | some text => if text = "" then detectionFailedMessage else text
    | none => detectionFailedMessage

/-- The synchronous part of `captureAndDetect` (lines 29-42): the guards, then the
in-flight flag is set, then the request goes out. -/
def captureAndDetect (cam : Webcam) (s : Detector) : Detector :=
  let s := { s with sampleTicks := s.frameCountRef :: s.sampleTicks }
  match cam with
  | none => s
  | some shot =>
    if s.isProcessingRef then s
    else
      match shot with
      | none => s
      | some imageSrc =>
        if imageSrc = "" then s
        else
          let s := { s with isProcessingRef := true }
          let s := { s with isLoading := true }
          { s with outstanding := s.outstanding + 1 }

/-- The success branch of the response handler (lines 44-67). -/
def applySuccess (data : DetectData) (s : Detector) : Detector :=
  let status := data.overall_status
  let last : LastDetection :=
    { status := status, detections := data.detections,
      confidence := (data.detections.bind List.head?).getD 0 }
  let s := { s with lastDetection := some last }
  let s := { s with detectionStats := updateStats status s.detectionStats }
  if s.hasOnDetectionResult then
    let result : DetectionResult :=
      { status := status, detections := data.detections, timestamp := data.timestamp }
    { s with reported := result :: s.reported }
  else s

/-- The rest of `captureAndDetect` after the `await` (lines 44-81), run when the
request settles. -/
def captureAndDetectResume (o : Outcome) (s : Detector) : Detector :=
  let s :=
    match o with
    | .resolved data =>
      let s := if data.success then applySuccess data s else s
      { s with error := none }
    | .rejected err => { s with error := some (failureMessage err) }
  let s := { s with isLoading := false }
  { s with isProcessingRef := false, outstanding := s.outstanding - 1 }

/-! ## PostureDetector.jsx : the tick loop -/

/-- JavaScript `a % b === 0` on non-negative integers (`a % 0` is `NaN`). -/
def remIsZero (a b : Nat) : Bool := b != 0 && a % b == 0

/-- Browser `requestAnimationFrame(processFrame)`: returns the handle. -/
def requestAnimationFrame (skip : Nat) (s : Detector) : Nat × Detector :=
  (s.nextFrameId,
   { s with pendingFrames := s.pendingFrames ++ [(s.nextFrameId, skip)],
            nextFrameId := s.nextFrameId + 1 })

/-- Browser `cancelAnimationFrame(id)`. -/
def cancelAnimationFrame (id : Nat) (s : Detector) : Detector :=
  { s with pendingFrames := s.pendingFrames.filter (fun p => p.1 != id) }

/-- The statement `if (animationRef.current) cancelAnimationFrame(animationRef.current)`. -/
def cancelIfScheduled (s : Detector) : Detector :=
  match s.animationRef with
  | some id => if id != 0 then cancelAnimationFrame id s else s
  | none => s

/-- The closure `processFrame` (lines 92-103) created with `frameSkip = skip`. -/
def processFrame (skip : Nat) (cam : Webcam) (s : Detector) : Detector :=
  let s := { s with frameCountRef := s.frameCountRef + 1 }
  let s := if s.frameCountRef % 10 = 0 then { s with currentFrame := s.frameCountRef } else s
  let s := if remIsZero s.frameCountRef skip && !s.isProcessingRef then captureAndDetect cam s
           else s
  let r := requestAnimationFrame skip s
  { r.2 with animationRef := some r.1 }

/-- Body of the effect (lines 85-105) for the current `isActive` and `frameSkip`. -/
def runEffect (s : Detector) : Detector :=
  if !s.isActive then cancelIfScheduled s
  else
    let r := requestAnimationFrame s.frameSkip s
    { r.2 with animationRef := some r.1 }

/-- Cleanup returned by the previous run of the effect (lines 107-111); the run with
`isActive = false` returns none. -/
def effectCleanup (wasActive : Bool) (s : Detector) : Detector :=
  if wasActive then cancelIfScheduled s else s

/-- What can happen to a mounted detector. -/
inductive Event where
  /-- the browser runs the animation-frame callback with this handle -/
  | frame (id : Nat) (cam : Webcam)
  /-- an outstanding `/detect` request settles -/
  | response (o : Outcome)
  /-- the `isActive` prop takes this value -/
  | setIsActive (b : Bool)
  /-- the slider calls `setFrameSkip` -/
  | setFrameSkip (n : Nat)
deriving DecidableEq, Repr

/-- One event.  A frame fires only while the browser holds its handle, a response
arrives only for a request that is outstanding, and a changed dependency runs the
previous cleanup and then the effect. -/
def step (s : Detector) : Event → Detector
  | .frame id cam =>
    match s.pendingFrames.find? (fun p => p.1 == id) with
    | none => s
    | some p => processFrame p.2 cam (cancelAnimationFrame id s)
  | .response o => if s.outstanding = 0 then s else captureAndDetectResume o s
  | .setIsActive b =>
    if b = s.isActive then s
    else runEffect { effectCleanup s.isActive s with isActive := b }
  | .setFrameSkip n =>
    if n = s.frameSkip then s
    else runEffect { effectCleanup s.isActive s with frameSkip := n }

/-- A sequence of events, oldest first. -/
def run (s : Detector) (es : List Event) : Detector := es.foldl step s

/-! ## PopupOverlay.jsx : dragging -/

/-- A pair of pixel coordinates. -/
structure Point where
  x : Int
  y : Int
deriving DecidableEq, Repr

/-- The browser viewport: `window.innerWidth` and `window.innerHeight`. -/
structure Viewport where
  innerWidth : Int
  innerHeight : Int
deriving DecidableEq, Repr

/-- A mouse event: pointer coordinates and whether `e.target` lies inside
`.popup-drag-handle`. -/
structure MouseEvent where
  clientX : Int
  clientY : Int
  onDragHandle : Bool
deriving DecidableEq, Repr

/-- One `PopupOverlay` (which `App` keeps mounted, also while `isEnabled` is false):
drag state, the mirror's state cell and ref, `document.pictureInPictureElement`
being set, and two observation fields (`closeCalls`, `alerts`). -/
structure Overlay where
  position : Point
  isDragging : Bool
  dragOffset : Point
  isMinimized : Bool
  isPiPActive : Bool
  /-- `pipWindowRef.current`: handle of the document picture-in-picture window -/
  pipWindowRef : Option Nat
  /-- `document.pictureInPictureElement` is non-null -/
  pictureInPictureElement : Bool
  /-- number of `close()` calls made on a picture-in-picture window -/
  closeCalls : Nat
  /-- number of `alert(...)` calls -/
  alerts : Nat
deriving DecidableEq, Repr

/-- The overlay as first rendered (`initialPosition = (20, 20)`). -/
def Overlay.initial : Overlay :=
  { position := { x := 20, y := 20 }, isDragging := false, dragOffset := { x := 0, y := 0 },
    isMinimized := false, isPiPActive := false, pipWindowRef := none,
    pictureInPictureElement := false, closeCalls := 0, alerts := 0 }

/-- Rendered width of the widget (lines 361-363): class `w-80` when expanded, which is
20rem, 320px at the usual root font size (`tailwind.config.js` leaves the spacing scale
alone); `w-auto` when minimized, sized by its content with no fixed value. -/
def widgetWidth (isMinimized : Bool) : Option Int :=
  if isMinimized then none else some 320

/-- The handler `handleMouseDown` (lines 279-288); `rect` is the top-left corner of
`overlayRef.current.getBoundingClientRect()`. -/
def handleMouseDown (rect : Point) (e : MouseEvent) (s : Overlay) : Overlay :=
  if e.onDragHandle then
    { s with isDragging := true,
             dragOffset := { x := e.clientX - rect.x, y := e.clientY - rect.y } }
  else s

/-- The handler `handleMouseMove` (lines 290-297). -/
def handleMouseMove (vp : Viewport) (e : MouseEvent) (s : Overlay) : Overlay :=
  if !s.isDragging then s
  else
    let newX := max 0 (min (vp.innerWidth - 200) (e.clientX - s.dragOffset.x))
    let newY := max 0 (min (vp.innerHeight - 100) (e.clientY - s.dragOffset.y))
    { s with position := { x := newX, y := newY } }

/-- The handler `handleMouseUp` (lines 299-301). -/
def handleMouseUp (s : Overlay) : Overlay :=
  { s with isDragging := false }

/-- The minimize button (line 418). -/
def toggleMinimized (s : Overlay) : Overlay :=
  { s with isMinimized := !s.isMinimized }

/-! ## PopupOverlay.jsx : the picture-in-picture mirror -/

/-- What the browser answers to `startPiP`. -/
structure PiPEnv where
  /-- `'documentPictureInPicture' in window` -/
  hasDocumentPiP : Bool
  /-- handle `requestWindow` resolves with; `none` when it rejects -/
  requestWindow : Option Nat
  /-- `videoRef.current` is non-null -/
  videoRefSet : Bool
  /-- `document.pictureInPictureEnabled` -/
  pictureInPictureEnabled : Bool
  /-- `requestPictureInPicture()` resolves -/
  requestVideoOk : Bool
deriving DecidableEq, Repr

/-- The function `startPiP` (lines 86-167). -/
def startPiP (env : PiPEnv) (s : Overlay) : Overlay :=
  if env.hasDocumentPiP then
    match env.requestWindow with
    | some w => { s with pipWindowRef := some w, isPiPActive := true }
    | none => { s with alerts := s.alerts + 1 }
  else if env.videoRefSet && env.pictureInPictureEnabled then
    if env.requestVideoOk then { s with pictureInPictureElement := true, isPiPActive := true }
    else { s with alerts := s.alerts + 1 }
  else s

/-- The function `stopPiP` (lines 169-182); `exitOk` says whether
`document.exitPictureInPicture()` resolves (a rejection lands in the `catch`, which
only logs). -/
def stopPiP (exitOk : Bool) (s : Overlay) : Overlay :=
  let s :=
    match s.pipWindowRef with
    | some _ => { s with closeCalls := s.closeCalls + 1, pipWindowRef := none }
    | none => s
  if s.pictureInPictureElement then
    if exitOk then { s with pictureInPictureElement := false, isPiPActive := false }
    else s
  else { s with isPiPActive := false }

/-- The `pagehide` listener installed on the picture-in-picture window (lines 150-153). -/
def onPagehide (s : Overlay) : Overlay :=
  { s with isPiPActive := false, pipWindowRef := none }

/-- The cleanup of the mount-only effect (lines 271-277); it runs when the component
unmounts. -/
def unmountCleanup (s : Overlay) : Overlay :=
  match s.pipWindowRef with
  | some _ => { s with closeCalls := s.closeCalls + 1 }
  | none => s

/-! ## App.jsx : the popup switch -/

/-- The part of `App` around the overlay: the `popupEnabled` cell (passed down as
`isEnabled`) and the mounted `PopupOverlay`. -/
structure App where
  popupEnabled : Bool
  overlay : Overlay
deriving DecidableEq, Repr

/-- The header button of `App` (lines 41-42): `setPopupEnabled(!popupEnabled)`. -/
def App.togglePopup (a : App) : App :=
  { a with popupEnabled := !a.popupEnabled }

/-- The close button of the overlay (line 428): `stopPiP(); onClose()`. -/
def App.closeButton (exitOk : Bool) (a : App) : App :=
  { popupEnabled := false, overlay := stopPiP exitOk a.overlay }

/-- The picture-in-picture button of the overlay (line 388). -/
def App.pipButton (env : PiPEnv) (exitOk : Bool) (a : App) : App :=
  { a with overlay := if a.overlay.isPiPActive then stopPiP exitOk a.overlay
                      else startPiP env a.overlay }

/-- The ways the mirror is asked to close. -/
inductive CloseTrigger where
  /-- the picture-in-picture button while the mirror is active -/
  | pipToggle
  /-- the close button of the overlay -/
  | overlayCloseButton
  /-- the popup button in the header of `App`, turning the overlay off -/
  | appPopupToggle
  /-- the `pagehide` event of the picture-in-picture window -/
  | pagehide
deriving DecidableEq, Repr

/-- The effect of a close trigger on `App`. -/
def App.close (exitOk : Bool) : CloseTrigger → App → App
  | .pipToggle, a => { a with overlay := stopPiP exitOk a.overlay }
  | .overlayCloseButton, a => a.closeButton exitOk
  | .appPopupToggle, a => a.togglePopup
  | .pagehide, a => { a with overlay := onPagehide a.overlay }

/-- The mirror is open on the document picture-in-picture window `w`, overlay shown. -/
def App.mirrorOpen (w : Nat) : App :=
  { popupEnabled := true,
    overlay := { Overlay.initial with isPiPActive := true, pipWindowRef := some w } }

/-- The mirror is closed: flag down and no window held. -/
def Overlay.mirrorClosed (s : Overlay) : Prop :=
  s.isPiPActive = false ∧ s.pipWindowRef = none

instance (s : Overlay) : Decidable s.mirrorClosed := by
  unfold Overlay.mirrorClosed; infer_instance

/-! ## PopupOverlay.jsx : the detection and redraw loop -/

/-- What a `detectAndDraw` closure captured from the render that created it, and which
run of the loop effect created it. -/
structure LoopClosure where
  generation : Nat
  isPiPActive : Bool
  currentStatus : String
deriving DecidableEq, Repr

/-- The loop side of a mounted `PopupOverlay` (lines 212-263): the props and state cells
the effect depends on, its refs, the browser's animation frames and the calls of
`detectAndDraw` waiting at their `await`, and a record of the mirror redraws. -/
structure OverlayLoop where
  isEnabled : Bool
  isPiPActive : Bool
  currentStatus : String
  /-- `pipWindowRef.current` -/
  pipWindowRef : Option Nat
  /-- `frameCountRef.current` -/
  frameCountRef : Nat
  /-- `isProcessingRef.current` -/
  isProcessingRef : Bool
  /-- number of runs of the loop effect so far -/
  generation : Nat
  /-- the variable `animationId` of the latest run of the effect -/
  animationId : Option Nat
  /-- animation-frame callbacks the browser holds, each with its closure -/
  pendingFrames : List (Nat × LoopClosure)
  /-- handle the next `requestAnimationFrame` returns -/
  nextFrameId : Nat
  /-- calls of `detectAndDraw` suspended at `await axios.post`, oldest first -/
  suspended : List LoopClosure
  /-- mirror redraws made by `updatePiPContent`: counter value and status shown, newest
  first -/
  redraws : List (Nat × String)
deriving DecidableEq, Repr

/-- The overlay loop right after `App` mounted the overlay with `popupEnabled = false`:
the effect returned at once. -/
def OverlayLoop.mount : OverlayLoop :=
  { isEnabled := false, isPiPActive := false, currentStatus := "unknown", pipWindowRef := none,
    frameCountRef := 0, isProcessingRef := false, generation := 0, animationId := none,
    pendingFrames := [], nextFrameId := 1, suspended := [], redraws := [] }

/-- The statement `animationId = requestAnimationFrame(detectAndDraw)` executed by the
closure `c`; the variable written belongs to the effect run that created `c`, and only
the latest run's variable is read again (by its cleanup). -/
def OverlayLoop.schedule (c : LoopClosure) (s : OverlayLoop) : OverlayLoop :=
  { s with pendingFrames := s.pendingFrames ++ [(s.nextFrameId, c)],
           nextFrameId := s.nextFrameId + 1,
           animationId := if c.generation = s.generation then some s.nextFrameId
                          else s.animationId }

/-- The function `updatePiPContent(status)` (lines 184-209). -/
def updatePiPContent (status : String) (s : OverlayLoop) : OverlayLoop :=
  match s.pipWindowRef with
  | none => s
  | some _ => { s with redraws := (s.frameCountRef, status) :: s.redraws }

/-- The closure `detectAndDraw` (lines 217-254) up to its `await` or its end: a tick
that issues a request stops at the `await` without reaching line 253. -/
def detectAndDraw (c : LoopClosure) (cam : Webcam) (s : OverlayLoop) : OverlayLoop :=
  let s := { s with frameCountRef := s.frameCountRef + 1 }
  let s := if c.isPiPActive && s.pipWindowRef.isSome then updatePiPContent c.currentStatus s
           else s
  if s.frameCountRef % 30 = 0 && !s.isProcessingRef then
    match cam with
    | none => OverlayLoop.schedule c s
    | some none => OverlayLoop.schedule c s
    | some (some imageSrc) =>
      if imageSrc = "" then OverlayLoop.schedule c s
      else
        let s := { s with isProcessingRef := true }
        { s with suspended := s.suspended ++ [c] }
  else OverlayLoop.schedule c s

/-- The cleanup of the loop effect (lines 258-262), present when the run it belongs to
was enabled. -/
def OverlayLoop.cleanup (s : OverlayLoop) : OverlayLoop :=
  if s.isEnabled then
    match s.animationId with
    | some id =>
      if id != 0 then { s with pendingFrames := s.pendingFrames.filter (fun p => p.1 != id) }
      else s
    | none => s
  else s

/-- A fresh run of the loop effect (lines 212-256) on the current props and state. -/
def OverlayLoop.runEffect (s : OverlayLoop) : OverlayLoop :=
  let s := { s with generation := s.generation + 1, animationId := none }
  if !s.isEnabled then s
  else
    OverlayLoop.schedule
      { generation := s.generation, isPiPActive := s.isPiPActive,
        currentStatus := s.currentStatus } s

/-- The rest of `detectAndDraw` after the `await` (lines 242-253) for the suspended call
of closure `c`; a changed `currentStatus` makes the effect run again afterwards. -/
def OverlayLoop.resume (c : LoopClosure) (o : Outcome) (s : OverlayLoop) : OverlayLoop :=
  let status :=
    match o with
    | Outcome.resolved data => if data.success then data.overall_status else s.currentStatus
    | Outcome.rejected _ => s.currentStatus
  let t := { s with isProcessingRef := false }
  let t := OverlayLoop.schedule c t
  if status = s.currentStatus then t
  else OverlayLoop.runEffect { OverlayLoop.cleanup t with currentStatus := status }

/-- What can happen to the overlay loop. -/
inductive LoopEvent where
  /-- the browser runs the animation-frame callback with this handle -/
  | frame (id : Nat) (cam : Webcam)
  /-- the oldest outstanding `/detect` request of the overlay settles -/
  | response (o : Outcome)
  /-- the prop `isEnabled` takes this value -/
  | setEnabled (b : Bool)
  /-- the mirror changes: `isPiPActive` and `pipWindowRef.current` take these values -/
  | setMirror (active : Bool) (window : Option Nat)
  /-- another dependency of the effect changes (tab visibility, sound setting) -/
  | otherDependency
deriving DecidableEq, Repr

/-- One event of the overlay loop. -/
def OverlayLoop.step (s : OverlayLoop) : LoopEvent → OverlayLoop
  | LoopEvent.frame id cam =>
    match s.pendingFrames.find? (fun p => p.1 == id) with
    | none => s
    | some p =>
      detectAndDraw p.2 cam
        { s with pendingFrames := s.pendingFrames.filter (fun q => q.1 != id) }
  | LoopEvent.response o =>
    match s.suspended with
    | [] => s
    | c :: rest => OverlayLoop.resume c o { s with suspended := rest }
  | LoopEvent.setEnabled b =>
    if b = s.isEnabled then s
    else OverlayLoop.runEffect { OverlayLoop.cleanup s with isEnabled := b }
  | LoopEvent.setMirror active window =>
    if active = s.isPiPActive then { s with pipWindowRef := window }
    else OverlayLoop.runEffect
      { OverlayLoop.cleanup s with isPiPActive := active, pipWindowRef := window }
  | LoopEvent.otherDependency => OverlayLoop.runEffect (OverlayLoop.cleanup s)

/-- A sequence of overlay loop events, oldest first. -/
def OverlayLoop.run (s : OverlayLoop) (es : List LoopEvent) : OverlayLoop :=
  es.foldl OverlayLoop.step s

/-! ## Observations used in the statements -/

/-- The tick `processFrame skip cam s` called `captureAndDetect`: the call is recorded
under the incremented counter value. -/
def sampleAttempted (skip : Nat) (cam : Webcam) (s : Detector) : Prop :=
  (processFrame skip cam s).sampleTicks = (s.frameCountRef + 1) :: s.sampleTicks

instance (skip : Nat) (cam : Webcam) (s : Detector) : Decidable (sampleAttempted skip cam s) := by
  unfold sampleAttempted; infer_instance

/-- A camera that delivers a frame. -/
def liveCam : Webcam := some (some "data:image/jpeg;base64,AAAA")

/-- The detector after the slider was set to 5, detection was started and nine frames
ran with no response yet: the request issued on tick 5 is still outstanding. -/
def busyAfterNine : Detector :=
  run mount ([Event.setFrameSkip 5, Event.setIsActive true] ++
    (List.range 9).map (fun k => Event.frame (k + 1) liveCam))

/-- The response handler run once for each payload, oldest first. -/
def respondAll (s : Detector) (payloads : List DetectData) : Detector :=
  payloads.foldl (fun t data => captureAndDetectResume (Outcome.resolved data) t) s

/-- A success payload carrying `status`. -/
def successPayload (status : String) : DetectData :=
  { success := true, overall_status := status, detections := none, timestamp := "", error := none }

/-- The overlay while its header is being dragged: pressed at `(30, 25)` with the
widget at its initial corner `(20, 20)`. -/
def draggingOverlay : Overlay :=
  handleMouseDown { x := 20, y := 20 } { clientX := 30, clientY := 25, onDragHandle := true }
    Overlay.initial

/-- The errors the request layer rejects with.  The library axios, a dependency outside
the sources, puts the text `Network Error` only on a failed connection, whose code is
`ERR_NETWORK` or absent; a timeout carries the code `ECONNABORTED` and the text
`timeout of 30000ms exceeded`. -/
def RequestError.fromRequestLayer (err : RequestError) : Prop :=
  includes err.message "Network Error" = true →
    (err.code = some "ERR_NETWORK" ∨ err.code = none)

instance (err : RequestError) : Decidable err.fromRequestLayer := by
  unfold RequestError.fromRequestLayer; infer_instance

/-- A failed connection as axios reports it in the browser. -/
def axiosNetworkError : RequestError :=
  { code := some "ERR_NETWORK", message := "Network Error", responseError := none }

/-- A refused connection as the network stack reports it. -/
def refusedError : RequestError :=
  { code := some "ECONNREFUSED", message := "connect ECONNREFUSED 127.0.0.1:5000",
    responseError := none }

/-- Modelled from the spec: the `/detect` response of the inference service, which is not
among the sources, carries `overall_status: "good"|"bad"` (section 6, HTTP boundary). -/
def DetectData.statusInDomain (data : DetectData) : Prop :=
  data.overall_status = "good" ∨ data.overall_status = "bad"

instance (data : DetectData) : Decidable data.statusInDomain := by
  unfold DetectData.statusInDomain; infer_instance

/-- The error axios raises when the 30000 ms timeout expires. -/
def axiosTimeoutError : RequestError :=
  { code := some "ECONNABORTED", message := "timeout of 30000ms exceeded",
    responseError := none }

/-- The in-flight flag counts the outstanding requests: one when set, none when clear. -/
def FlagTracksRequest (s : Detector) : Prop :=
  s.outstanding = if s.isProcessingRef then 1 else 0

/-- The loop invariant of the tick effect: while active the browser holds exactly one
callback, the one `animationRef` names, created with the current `frameSkip`; while
inactive it holds none. -/
def LoopInv (s : Detector) : Prop :=
  1 ≤ s.nextFrameId ∧
  if s.isActive then
    ∃ id, 1 ≤ id ∧ id < s.nextFrameId ∧
      s.pendingFrames = [(id, s.frameSkip)] ∧ s.animationRef = some id
  else s.pendingFrames = []

/-- The fields of the detector the tick loop owns or reads. -/
def loopView (s : Detector) : Bool × Nat × List (Nat × Nat) × Option Nat × Nat × Nat :=
  (s.isActive, s.frameSkip, s.pendingFrames, s.animationRef, s.nextFrameId, s.frameCountRef)

/-- Detection is started with the default `frameSkip = 30` and thirty frames run: the
request issued on tick 30 is outstanding. -/
def thirtyFramesIn : List Event :=
  Event.setIsActive true :: (List.range 30).map (fun k => Event.frame (k + 1) liveCam)

/-- The detector is stopped while the request of tick 30 is still outstanding. -/
def stoppedWhileBusy : Detector :=
  step (run mount thirtyFramesIn) (Event.setIsActive false)

/-- A success payload classifying the frame as `good` with one detection. -/
def goodPayload : DetectData :=
  { success := true, overall_status := "good", detections := some [9 / 10],
    timestamp := "2025-01-01T00:00:00", error := none }

/-- Events after the stop: a stale frame handle, the late response, a slider change,
another frame handle and a repeated stop. -/
def afterStop : List Event :=
  [Event.frame 31 liveCam, Event.response (Outcome.resolved goodPayload),
   Event.setFrameSkip 10, Event.frame 32 liveCam, Event.setIsActive false]

/-- A resolved response whose payload reports failure and carries an error text. -/
def rejectedPayload : DetectData :=
  { success := false, overall_status := "", detections := none, timestamp := "",
    error := some "Model not loaded" }

/-- With `frameSkip = 5`, five frames bring a request, which times out; five more bring
the next request: the error slot shows the timeout message and a request is outstanding. -/
def secondRequestAfterTimeout : List Event :=
  [Event.setFrameSkip 5, Event.setIsActive true] ++
    (List.range 5).map (fun k => Event.frame (k + 1) liveCam) ++
    Event.response (Outcome.rejected axiosTimeoutError) ::
    (List.range 5).map (fun k => Event.frame (k + 6) liveCam)

/-- Start, three frames, stop, start again. -/
def restartAfterThree : List Event :=
  [Event.setIsActive true, Event.frame 1 liveCam, Event.frame 2 liveCam,
   Event.frame 3 liveCam, Event.setIsActive false, Event.setIsActive true]

/-- Whether the event is a slider change of `frameSkip`. -/
def Event.changesFrameSkip : Event → Bool
  | Event.setFrameSkip _ => true
  | _ => false

/-- The sample ticks recorded since `base` was the record: all at multiples of `skip`, none
beyond the counter, and each at least `skip` after the one before it. -/
def SamplesSpaced (skip : Nat) (base : List Nat) (s : Detector) : Prop :=
  ∃ new, s.sampleTicks = new ++ base ∧
    (∀ t ∈ new, t % skip = 0 ∧ t ≤ s.frameCountRef) ∧
    new.Pairwise (fun later earlier => earlier + skip ≤ later)

/-- With `frameSkip = 5`: ten frames, the response to the request of tick 5 arriving
after the seventh. -/
def tenFramesOneResponse : List Event :=
  (List.range 7).map (fun k => Event.frame (k + 1) liveCam) ++
    Event.response (Outcome.resolved goodPayload) ::
    (List.range 3).map (fun k => Event.frame (k + 8) liveCam)

/-- The overlay is enabled, the mirror is opened on window 7 and thirty frames run: the
thirtieth tick issued a detection request, which is outstanding. -/
def overlayBusy : OverlayLoop :=
  OverlayLoop.run OverlayLoop.mount
    ([LoopEvent.setEnabled true, LoopEvent.setMirror true (some 7)] ++
      (List.range 30).map (fun k => LoopEvent.frame (k + 2) liveCam))

/-- A browser without document picture-in-picture whose `document` has
`pictureInPictureEnabled`: the button is shown, and `videoRef`, which no element is
attached to, is empty. -/
def videoOnlyBrowser : PiPEnv :=
  { hasDocumentPiP := false, requestWindow := none, videoRefSet := false,
    pictureInPictureEnabled := true, requestVideoOk := false }

/-- A browser with document picture-in-picture whose `requestWindow` rejects. -/
def rejectingBrowser : PiPEnv :=
  { hasDocumentPiP := true, requestWindow := none, videoRefSet := false,
    pictureInPictureEnabled := true, requestVideoOk := false }

/-- The overlay is turned off while the request of its thirtieth tick is outstanding:
the cleanup of the loop effect has run. -/
def overlayStoppedWhileBusy : OverlayLoop :=
  OverlayLoop.step overlayBusy (LoopEvent.setEnabled false)

/-- The outstanding request of the stopped overlay settles (here with a timeout). -/
def overlayAfterLateResponse : OverlayLoop :=
  OverlayLoop.step overlayStoppedWhileBusy
    (LoopEvent.response (Outcome.rejected axiosTimeoutError))

/-! ## Theorems -/

theorem flagTracksRequest_mount : FlagTracksRequest mount := by
  simp [FlagTracksRequest, mount]

theorem captureAndDetect_flagTracks (cam : Webcam) (s : Detector)
    (h : FlagTracksRequest s) : FlagTracksRequest (captureAndDetect cam s) := by
  unfold FlagTracksRequest at *
  unfold captureAndDetect
  rcases cam with _ | (_ | img)
  · simpa using h
  · by_cases hp : s.isProcessingRef <;> simp_all
  · by_cases hp : s.isProcessingRef <;> by_cases hi : img = "" <;> simp_all

theorem cancelIfScheduled_flag (s : Detector) :
    (cancelIfScheduled s).outstanding = s.outstanding ∧
    (cancelIfScheduled s).isProcessingRef = s.isProcessingRef := by
  unfold cancelIfScheduled cancelAnimationFrame
  split
  · split <;> simp
  · simp

theorem runEffect_flag (s : Detector) :
    (runEffect s).outstanding = s.outstanding ∧
    (runEffect s).isProcessingRef = s.isProcessingRef := by
  unfold runEffect
  split
  · exact cancelIfScheduled_flag s
  · simp [requestAnimationFrame]

theorem effectCleanup_flag (b : Bool) (s : Detector) :
    (effectCleanup b s).outstanding = s.outstanding ∧
    (effectCleanup b s).isProcessingRef = s.isProcessingRef := by
  unfold effectCleanup
  split
  · exact cancelIfScheduled_flag s
  · simp

theorem applySuccess_flag (data : DetectData) (s : Detector) :
    (applySuccess data s).outstanding = s.outstanding ∧
    (applySuccess data s).isProcessingRef = s.isProcessingRef := by
  unfold applySuccess
  simp only
  split <;> simp

theorem captureAndDetectResume_flag (o : Outcome) (s : Detector) :
    (captureAndDetectResume o s).outstanding = s.outstanding - 1 ∧
    (captureAndDetectResume o s).isProcessingRef = false := by
  unfold captureAndDetectResume
  cases o with
  | resolved data =>
    simp only
    split
    · simp [(applySuccess_flag data s).1]
    · simp
  | rejected err => simp

theorem step_flagTracks (s : Detector) (e : Event)
    (h : FlagTracksRequest s) : FlagTracksRequest (step s e) := by
  cases e with
  | frame id cam =>
    simp only [step]
    split
    · exact h
    · have h0 : FlagTracksRequest (cancelAnimationFrame id s) := h
      generalize cancelAnimationFrame id s = t at h0
      simp only [processFrame, requestAnimationFrame]
      split_ifs
      · exact captureAndDetect_flagTracks _ _ h0
      · exact h0
      · exact captureAndDetect_flagTracks _ _ h0
      · exact h0
  | response o =>
    simp only [step]
    split_ifs with h0
    · exact h
    · unfold FlagTracksRequest at *
      rw [(captureAndDetectResume_flag o s).1, (captureAndDetectResume_flag o s).2]
      by_cases hp : s.isProcessingRef <;> simp_all
  | setIsActive b =>
    simp only [step]
    split_ifs
    · exact h
    · unfold FlagTracksRequest at *
      rw [(runEffect_flag _).1, (runEffect_flag _).2]
      simpa [(effectCleanup_flag s.isActive s).1, (effectCleanup_flag s.isActive s).2] using h
  | setFrameSkip n =>
    simp only [step]
    split_ifs
    · exact h
    · unfold FlagTracksRequest at *
      rw [(runEffect_flag _).1, (runEffect_flag _).2]
      simpa [(effectCleanup_flag s.isActive s).1, (effectCleanup_flag s.isActive s).2] using h

theorem run_flagTracks (es : List Event) (s : Detector)
    (h : FlagTracksRequest s) : FlagTracksRequest (run s es) := by
  induction es generalizing s with
  | nil => exact h
  | cons e es ih => exact ih _ (step_flagTracks s e h)

/-- C1: along every sequence of frame, response, activation and slider events from the
freshly mounted detector, at most one `/detect` request is outstanding, the in-flight
flag is set exactly while one is, and an event that issues a request finds the flag
clear and leaves it set. -/
theorem C1_single_flight (es : List Event) (e : Event) :
    (run mount es).outstanding ≤ 1 ∧
    ((run mount es).isProcessingRef = true ↔ (run mount es).outstanding = 1) ∧
    ((run mount es).outstanding < (step (run mount es) e).outstanding →
      (run mount es).isProcessingRef = false ∧
      (step (run mount es) e).isProcessingRef = true) := by
  have h := run_flagTracks es mount flagTracksRequest_mount
  have h2 := step_flagTracks _ e h
  generalize run mount es = s at h h2
  generalize step s e = t at h2
  unfold FlagTracksRequest at h h2
  by_cases hs : s.isProcessingRef <;> by_cases ht : t.isProcessingRef <;> simp_all

/-- C1 at a concrete run: with the default `frameSkip = 30`, the thirtieth frame after
activation issues the first request, finding the flag clear and leaving it set. -/
theorem C1_single_flight_witness :
    (run mount (Event.setIsActive true ::
        (List.range 29).map (fun k => Event.frame (k + 1) liveCam))).outstanding <
      (step (run mount (Event.setIsActive true ::
        (List.range 29).map (fun k => Event.frame (k + 1) liveCam)))
        (Event.frame 30 liveCam)).outstanding ∧
    (step (run mount (Event.setIsActive true ::
        (List.range 29).map (fun k => Event.frame (k + 1) liveCam)))
        (Event.frame 30 liveCam)).isProcessingRef = true :=
  ⟨by decide,
   ((C1_single_flight (Event.setIsActive true ::
        (List.range 29).map (fun k => Event.frame (k + 1) liveCam))
      (Event.frame 30 liveCam)).2.2 (by decide)).2⟩

theorem captureAndDetect_sampleTicks (cam : Webcam) (s : Detector) :
    (captureAndDetect cam s).sampleTicks = s.frameCountRef :: s.sampleTicks := by
  unfold captureAndDetect
  rcases cam with _ | (_ | img)
  · rfl
  · by_cases hp : s.isProcessingRef <;> simp [hp]
  · by_cases hp : s.isProcessingRef <;> by_cases hi : img = "" <;> simp [hp, hi]

theorem remIsZero_succ (t skip : Nat) :
    remIsZero (t + 1) skip = true ↔ (t + 1) % skip = 0 := by
  unfold remIsZero
  rcases Nat.eq_zero_or_pos skip with h | h
  · subst h; simp
  · have : skip ≠ 0 := by omega
    simp [this]

theorem processFrame_sampleTicks (skip : Nat) (cam : Webcam) (s : Detector) :
    (processFrame skip cam s).sampleTicks =
      if (s.frameCountRef + 1) % skip = 0 ∧ s.isProcessingRef = false then
        (s.frameCountRef + 1) :: s.sampleTicks
      else s.sampleTicks := by
  have hr := remIsZero_succ s.frameCountRef skip
  unfold processFrame
  simp only [requestAnimationFrame]
  by_cases h10 : (s.frameCountRef + 1) % 10 = 0 <;>
    by_cases hz : remIsZero (s.frameCountRef + 1) skip = true <;>
    by_cases hp : s.isProcessingRef = true <;>
    simp_all [captureAndDetect_sampleTicks]

/-- C2, as stated, fails on a reachable state: with `frameSkip = 5`, nine frames in and
the request of tick 5 still outstanding, the tenth tick has `10 mod 5 = 0` and does not
call `captureAndDetect`. -/
theorem C2_counterexample :
    5 ≤ 5 ∧ 5 ≤ 60 ∧ busyAfterNine.frameCountRef + 1 = 10 ∧
    (busyAfterNine.frameCountRef + 1) % 5 = 0 ∧
    ¬ sampleAttempted 5 liveCam busyAfterNine := by
  decide

/-- C2, amended: for every `frameSkip` (so for each in `[5,60]`) a tick whose counter
value after the increment is `t` calls `captureAndDetect` if and only if
`t mod frameSkip = 0` and the in-flight flag is clear; a tick that does not call it
records nothing. -/
theorem C2_sample_iff_guard (skip : Nat) (cam : Webcam) (s : Detector) :
    (sampleAttempted skip cam s ↔
      ((s.frameCountRef + 1) % skip = 0 ∧ s.isProcessingRef = false)) ∧
    (¬ sampleAttempted skip cam s → (processFrame skip cam s).sampleTicks = s.sampleTicks) := by
  unfold sampleAttempted
  rw [processFrame_sampleTicks]
  by_cases h : (s.frameCountRef + 1) % skip = 0 ∧ s.isProcessingRef = false
  · simp [h]
  · simp [h]

/-- C2 amended, at concrete ticks: tick 5 with the flag clear samples, tick 10 with a
request outstanding does not and records nothing. -/
theorem C2_sample_iff_guard_witness :
    sampleAttempted 5 liveCam
      (run mount ([Event.setFrameSkip 5, Event.setIsActive true] ++
        (List.range 4).map (fun k => Event.frame (k + 1) liveCam))) ∧
    (processFrame 5 liveCam busyAfterNine).sampleTicks = busyAfterNine.sampleTicks :=
  ⟨(C2_sample_iff_guard 5 liveCam _).1.2 (by decide),
   (C2_sample_iff_guard 5 liveCam busyAfterNine).2 (by decide)⟩

theorem applySuccess_stats (data : DetectData) (s : Detector) :
    (applySuccess data s).detectionStats = updateStats data.overall_status s.detectionStats := by
  unfold applySuccess
  simp only
  split <;> rfl

theorem captureAndDetectResume_stats_success (data : DetectData) (s : Detector)
    (h : data.success = true) :
    (captureAndDetectResume (Outcome.resolved data) s).detectionStats =
      updateStats data.overall_status s.detectionStats := by
  simp [captureAndDetectResume, h, applySuccess_stats]

theorem respondAll_stats (payloads : List DetectData) (s : Detector)
    (hok : ∀ d ∈ payloads, d.success = true) :
    (respondAll s payloads).detectionStats.totalDetections =
        s.detectionStats.totalDetections + payloads.length ∧
    (respondAll s payloads).detectionStats.goodPostureCount =
        s.detectionStats.goodPostureCount +
          payloads.countP (fun d => d.overall_status = "good") ∧
    (respondAll s payloads).detectionStats.badPostureCount =
        s.detectionStats.badPostureCount +
          payloads.countP (fun d => d.overall_status = "bad") ∧
    (respondAll s payloads).detectionStats.currentStatus =
        ((payloads.getLast?).map (fun d => d.overall_status)).getD
          s.detectionStats.currentStatus := by
  induction payloads generalizing s with
  | nil => simp [respondAll]
  | cons d ds ih =>
    have hd : d.success = true := hok d (List.mem_cons_self _ _)
    have hds : ∀ x ∈ ds, x.success = true := fun x hx => hok x (List.mem_cons_of_mem _ hx)
    have step1 := captureAndDetectResume_stats_success d s hd
    have h := ih (captureAndDetectResume (Outcome.resolved d) s) hds
    have hfold : respondAll s (d :: ds) =
        respondAll (captureAndDetectResume (Outcome.resolved d) s) ds := rfl
    rw [hfold]
    obtain ⟨h1, h2, h3, h4⟩ := h
    rw [step1] at h1 h2 h3 h4
    refine ⟨?_, ?_, ?_, ?_⟩
    · rw [h1]; simp [updateStats]; omega
    · rw [h2, List.countP_cons]
      by_cases hg : d.overall_status = "good"
      · simp [updateStats, hg]; omega
      · simp [updateStats, hg]
    · rw [h3, List.countP_cons]
      by_cases hb : d.overall_status = "bad"
      · simp [updateStats, hb]; omega
      · simp [updateStats, hb]
    · rw [h4]
      cases ds with
      | nil => simp [updateStats]
      | cons e es =>
        rw [List.getLast?_cons_cons, List.getLast?_eq_getLast (e :: es) (List.cons_ne_nil _ _)]
        rfl

/-- C3: starting from the initial statistics, after the response handler has processed
a sequence of successful classifications, each `good` or `bad`, `totalDetections` is the
length of the sequence, `goodPostureCount` the number of `good` entries,
`badPostureCount` the number of `bad` entries (the two adding up to the total), and
`currentStatus` the last entry (`unknown` for the empty sequence). -/
theorem C3_stats_after_classifications (s : Detector) (payloads : List DetectData)
    (hinit : s.detectionStats = initialStats)
    (hok : ∀ d ∈ payloads,
      d.success = true ∧ (d.overall_status = "good" ∨ d.overall_status = "bad")) :
    (respondAll s payloads).detectionStats.totalDetections = payloads.length ∧
    (respondAll s payloads).detectionStats.goodPostureCount =
      payloads.countP (fun d => d.overall_status = "good") ∧
    (respondAll s payloads).detectionStats.badPostureCount =
      payloads.countP (fun d => d.overall_status = "bad") ∧
    (respondAll s payloads).detectionStats.goodPostureCount +
      (respondAll s payloads).detectionStats.badPostureCount = payloads.length ∧
    (respondAll s payloads).detectionStats.currentStatus =
      ((payloads.getLast?).map (fun d => d.overall_status)).getD "unknown" := by
  obtain ⟨h1, h2, h3, h4⟩ := respondAll_stats payloads s (fun d hd => (hok d hd).1)
  rw [hinit] at h1 h2 h3 h4
  simp only [initialStats, Nat.zero_add] at h1 h2 h3 h4
  refine ⟨h1, h2, h3, ?_, h4⟩
  rw [h2, h3]
  clear h1 h2 h3 h4
  induction payloads with
  | nil => simp
  | cons d ds ih =>
    have hds := ih (fun x hx => hok x (List.mem_cons_of_mem _ hx))
    have hd := (hok d (List.mem_cons_self _ _)).2
    rw [List.countP_cons, List.countP_cons, List.length_cons]
    rcases hd with hg | hb
    · have : ¬ d.overall_status = "bad" := by rw [hg]; decide
      simp [hg] at hds ⊢
      omega
    · have : ¬ d.overall_status = "good" := by rw [hb]; decide
      simp [hb] at hds ⊢
      omega

/-- C3 at `[good, bad, good]`: total 3, good 2, bad 1, status `good`. -/
theorem C3_stats_witness :
    (respondAll mount
      [successPayload "good", successPayload "bad", successPayload "good"]).detectionStats =
      { totalDetections := 3, goodPostureCount := 2, badPostureCount := 1,
        currentStatus := "good" } ∧
    (respondAll mount
      [successPayload "good", successPayload "bad", successPayload "good"]
      ).detectionStats.totalDetections =
      [successPayload "good", successPayload "bad", successPayload "good"].length :=
  ⟨by decide,
   (C3_stats_after_classifications mount
      [successPayload "good", successPayload "bad", successPayload "good"] rfl
      (by decide)).1⟩

/-- C4, as stated, fails: in a 1280 x 720 viewport the expanded widget (320 wide) is
dragged with the pointer at `x = 1500`; `handleMouseMove` puts its left edge at
`1280 - 200 = 1080`, beyond `1280 - 320 = 960`, so the widget overhangs the right edge. -/
theorem C4_counterexample :
    draggingOverlay.isDragging = true ∧
    widgetWidth draggingOverlay.isMinimized = some 320 ∧
    (handleMouseMove { innerWidth := 1280, innerHeight := 720 }
      { clientX := 1500, clientY := 300, onDragHandle := false } draggingOverlay).position =
      { x := 1080, y := 295 } ∧
    ¬ ((1080 : Int) ≤ 1280 - 320) := by
  decide

/-- C4, amended: for every viewport, drag offset and pointer position, the position
`handleMouseMove` computes while dragging satisfies `0 ≤ x ≤ max 0 (innerWidth - 200)`
and `0 ≤ y ≤ max 0 (innerHeight - 100)`: the footprint subtracted is the fixed
200 x 100, so in a viewport of at least that size `x ≤ innerWidth - 200` and
`y ≤ innerHeight - 100`. -/
theorem C4_position_clamped_fixed_footprint (vp : Viewport) (e : MouseEvent) (s : Overlay)
    (hdrag : s.isDragging = true) :
    0 ≤ (handleMouseMove vp e s).position.x ∧
    (handleMouseMove vp e s).position.x ≤ max 0 (vp.innerWidth - 200) ∧
    0 ≤ (handleMouseMove vp e s).position.y ∧
    (handleMouseMove vp e s).position.y ≤ max 0 (vp.innerHeight - 100) ∧
    (200 ≤ vp.innerWidth → (handleMouseMove vp e s).position.x ≤ vp.innerWidth - 200) ∧
    (100 ≤ vp.innerHeight → (handleMouseMove vp e s).position.y ≤ vp.innerHeight - 100) := by
  simp only [handleMouseMove, hdrag, Bool.not_true, Bool.false_eq_true, if_false]
  refine ⟨le_max_left _ _, ?_, le_max_left _ _, ?_, ?_, ?_⟩
  · exact max_le_max (le_refl 0) (min_le_left _ _)
  · exact max_le_max (le_refl 0) (min_le_left _ _)
  · intro h
    exact max_le (by omega) (min_le_left _ _)
  · intro h
    exact max_le (by omega) (min_le_left _ _)

/-- C4 amended, at a pointer that left the viewport on the right and at the top. -/
theorem C4_position_clamped_witness :
    draggingOverlay.isDragging = true ∧
    (handleMouseMove { innerWidth := 1280, innerHeight := 720 }
      { clientX := 1500, clientY := -40, onDragHandle := false } draggingOverlay).position.x
      ≤ 1280 - 200 ∧
    0 ≤ (handleMouseMove { innerWidth := 1280, innerHeight := 720 }
      { clientX := 1500, clientY := -40, onDragHandle := false } draggingOverlay).position.y :=
  ⟨by decide,
   (C4_position_clamped_fixed_footprint { innerWidth := 1280, innerHeight := 720 }
      { clientX := 1500, clientY := -40, onDragHandle := false } draggingOverlay
      (by decide)).2.2.2.2.1 (by decide),
   (C4_position_clamped_fixed_footprint { innerWidth := 1280, innerHeight := 720 }
      { clientX := 1500, clientY := -40, onDragHandle := false } draggingOverlay
      (by decide)).2.2.1⟩

/-- C5, as stated, fails: the widget is minimized mid-drag and expanded again by the
toggle (320 wide afterwards); a pointer far to the right in a 1000 x 800 viewport then
yields `x = 800`, not `1000 - 320 = 680`, and the very same position results without
the toggle. -/
theorem C5_counterexample :
    (toggleMinimized (toggleMinimized draggingOverlay)).isDragging = true ∧
    widgetWidth (toggleMinimized (toggleMinimized draggingOverlay)).isMinimized = some 320 ∧
    (handleMouseMove { innerWidth := 1000, innerHeight := 800 }
      { clientX := 5000, clientY := 5000, onDragHandle := false }
      (toggleMinimized (toggleMinimized draggingOverlay))).position.x = 800 ∧
    (800 : Int) ≠ 1000 - 320 ∧
    (handleMouseMove { innerWidth := 1000, innerHeight := 800 }
      { clientX := 5000, clientY := 5000, onDragHandle := false }
      (toggleMinimized draggingOverlay)).position.x = 800 := by
  decide

/-- C5, amended: the footprint `handleMouseMove` clamps with does not depend on the
minimized flag.  A pointer move processed after the flag was toggled during a drag
computes the same position as without the toggle, keeps the toggled flag, and the clamp
is not inverted: both coordinates are at least 0. -/
theorem C5_clamp_independent_of_minimized (vp : Viewport) (e : MouseEvent) (s : Overlay)
    (hdrag : s.isDragging = true) :
    (handleMouseMove vp e (toggleMinimized s)).position = (handleMouseMove vp e s).position ∧
    (handleMouseMove vp e (toggleMinimized s)).isMinimized = !s.isMinimized ∧
    0 ≤ (handleMouseMove vp e (toggleMinimized s)).position.x ∧
    0 ≤ (handleMouseMove vp e (toggleMinimized s)).position.y := by
  simp [handleMouseMove, toggleMinimized, hdrag]

/-- C5 amended, at a concrete drag. -/
theorem C5_clamp_independent_witness :
    draggingOverlay.isDragging = true ∧
    (handleMouseMove { innerWidth := 1000, innerHeight := 800 }
      { clientX := 5000, clientY := 5000, onDragHandle := false }
      (toggleMinimized draggingOverlay)).position =
    (handleMouseMove { innerWidth := 1000, innerHeight := 800 }
      { clientX := 5000, clientY := 5000, onDragHandle := false } draggingOverlay).position :=
  ⟨by decide,
   (C5_clamp_independent_of_minimized { innerWidth := 1000, innerHeight := 800 }
      { clientX := 5000, clientY := 5000, onDragHandle := false } draggingOverlay
      (by decide)).1⟩

/-- C6: in the failure handler, every error of the request layer with the timeout code
`ECONNABORTED` sets the error slot to the timeout message and not to the cannot-connect
message; every error with code `ECONNREFUSED`, and every error whose text contains
`Network Error`, sets it to the cannot-connect message; the two messages differ. -/
theorem C6_timeout_distinct_from_unreachable (err : RequestError) (s : Detector) :
    (err.fromRequestLayer → err.code = some "ECONNABORTED" →
      (captureAndDetectResume (Outcome.rejected err) s).error = some timeoutMessage ∧
      (captureAndDetectResume (Outcome.rejected err) s).error ≠ some cannotConnectMessage) ∧
    (err.code = some "ECONNREFUSED" →
      (captureAndDetectResume (Outcome.rejected err) s).error = some cannotConnectMessage) ∧
    (includes err.message "Network Error" = true →
      (captureAndDetectResume (Outcome.rejected err) s).error = some cannotConnectMessage) ∧
    timeoutMessage ≠ cannotConnectMessage := by
  have hdiff : timeoutMessage ≠ cannotConnectMessage := by decide
  refine ⟨?_, ?_, ?_, hdiff⟩
  · intro hlayer hc
    have hne : ¬ (some "ECONNABORTED" : Option String) = some "ECONNREFUSED" := by decide
    have hm : includes err.message "Network Error" = false := by
      cases hinc : includes err.message "Network Error"
      · rfl
      · rcases hlayer hinc with h | h
        · rw [hc] at h
          exact absurd h (by decide)
        · rw [hc] at h
          exact absurd h (by simp)
    have herr : (captureAndDetectResume (Outcome.rejected err) s).error = some timeoutMessage := by
      simp [captureAndDetectResume, failureMessage, hc, hm, hne]
    refine ⟨herr, ?_⟩
    rw [herr]
    intro h
    exact hdiff (Option.some.inj h)
  · intro hc
    simp [captureAndDetectResume, failureMessage, hc]
  · intro hm
    simp [captureAndDetectResume, failureMessage, hm]

/-- C6 at the timeout error of axios, at a refused connection and at its network
error. -/
theorem C6_timeout_distinct_witness :
    axiosTimeoutError.fromRequestLayer ∧
    (captureAndDetectResume (Outcome.rejected axiosTimeoutError) mount).error =
      some timeoutMessage ∧
    (captureAndDetectResume (Outcome.rejected refusedError) mount).error =
      some cannotConnectMessage ∧
    (captureAndDetectResume (Outcome.rejected axiosNetworkError) mount).error =
      some cannotConnectMessage :=
  ⟨by decide,
   ((C6_timeout_distinct_from_unreachable axiosTimeoutError mount).1
      (by decide) (by decide)).1,
   (C6_timeout_distinct_from_unreachable refusedError mount).2.1 (by decide),
   (C6_timeout_distinct_from_unreachable axiosNetworkError mount).2.2.1 (by decide)⟩

/-- C7 at the failing input: with the mirror open on window `w`, the picture-in-picture
button, the close button of the overlay and the `pagehide` event all end in the closed
state with at most one `close()` call, but turning the overlay off with the popup button
of `App` hides the overlay and leaves `isPiPActive` true and `pipWindowRef` holding `w`,
with no `close()` call. -/
theorem C7_app_toggle_leaves_mirror_open (w : Nat) (exitOk : Bool) :
    (((App.mirrorOpen w).close exitOk CloseTrigger.pipToggle).overlay.mirrorClosed ∧
      ((App.mirrorOpen w).close exitOk CloseTrigger.pipToggle).overlay.closeCalls = 1) ∧
    (((App.mirrorOpen w).close exitOk CloseTrigger.overlayCloseButton).overlay.mirrorClosed ∧
      ((App.mirrorOpen w).close exitOk CloseTrigger.overlayCloseButton).overlay.closeCalls = 1 ∧
      ((App.mirrorOpen w).close exitOk CloseTrigger.overlayCloseButton).popupEnabled = false) ∧
    (((App.mirrorOpen w).close exitOk CloseTrigger.pagehide).overlay.mirrorClosed ∧
      ((App.mirrorOpen w).close exitOk CloseTrigger.pagehide).overlay.closeCalls = 0) ∧
    (((App.mirrorOpen w).close exitOk CloseTrigger.appPopupToggle).popupEnabled = false ∧
      ((App.mirrorOpen w).close exitOk CloseTrigger.appPopupToggle).overlay.isPiPActive = true ∧
      ((App.mirrorOpen w).close exitOk CloseTrigger.appPopupToggle).overlay.pipWindowRef = some w ∧
      ((App.mirrorOpen w).close exitOk CloseTrigger.appPopupToggle).overlay.closeCalls = 0) := by
  simp [App.close, App.mirrorOpen, App.closeButton, App.togglePopup, stopPiP, onPagehide,
    Overlay.mirrorClosed, Overlay.initial]

/-- C8: `stopPiP` is idempotent.  On a closed mirror (flag down, no window held, no
native picture-in-picture element) it changes nothing, so it calls no `close()`; on every
state a second application gives the state of the first, both when
`exitPictureInPicture` behaves the same in the two calls and when it resolved in the
first. -/
theorem C8_stopPiP_idempotent (s : Overlay) (exitOk exitOk2 : Bool) :
    stopPiP exitOk
        { s with isPiPActive := false, pipWindowRef := none, pictureInPictureElement := false } =
      { s with isPiPActive := false, pipWindowRef := none, pictureInPictureElement := false } ∧
    stopPiP exitOk (stopPiP exitOk s) = stopPiP exitOk s ∧
    stopPiP exitOk2 (stopPiP true s) = stopPiP true s ∧
    (stopPiP exitOk (stopPiP exitOk s)).closeCalls = (stopPiP exitOk s).closeCalls := by
  refine ⟨by simp [stopPiP], ?_, ?_, ?_⟩
  · rcases s with ⟨pos, drag, off, mini, act, _ | w, _ | _, cc, al⟩ <;>
      cases exitOk <;> simp [stopPiP]
  · rcases s with ⟨pos, drag, off, mini, act, _ | w, _ | _, cc, al⟩ <;>
      cases exitOk2 <;> simp [stopPiP]
  · rcases s with ⟨pos, drag, off, mini, act, _ | w, _ | _, cc, al⟩ <;>
      cases exitOk <;> simp [stopPiP]

theorem captureAndDetect_loopView (cam : Webcam) (s : Detector) :
    loopView (captureAndDetect cam s) = loopView s := by
  unfold captureAndDetect loopView
  rcases cam with _ | (_ | img)
  · rfl
  · by_cases hp : s.isProcessingRef <;> simp [hp]
  · by_cases hp : s.isProcessingRef <;> by_cases hi : img = "" <;> simp [hp, hi]

theorem applySuccess_loopView (data : DetectData) (s : Detector) :
    loopView (applySuccess data s) = loopView s ∧
    (applySuccess data s).sampleTicks = s.sampleTicks := by
  unfold applySuccess loopView
  simp only
  split <;> simp

theorem captureAndDetectResume_loopView (o : Outcome) (s : Detector) :
    loopView (captureAndDetectResume o s) = loopView s ∧
    (captureAndDetectResume o s).sampleTicks = s.sampleTicks := by
  have ha := fun data => applySuccess_loopView data s
  unfold loopView at ha ⊢
  unfold captureAndDetectResume
  cases o with
  | resolved data =>
    simp only
    split
    · simpa using ha data
    · simp
  | rejected err => simp

theorem processFrame_loop (skip : Nat) (cam : Webcam) (s : Detector) :
    (processFrame skip cam s).isActive = s.isActive ∧
    (processFrame skip cam s).frameSkip = s.frameSkip ∧
    (processFrame skip cam s).pendingFrames = s.pendingFrames ++ [(s.nextFrameId, skip)] ∧
    (processFrame skip cam s).animationRef = some s.nextFrameId ∧
    (processFrame skip cam s).nextFrameId = s.nextFrameId + 1 := by
  unfold processFrame
  simp only [requestAnimationFrame]
  split_ifs with h10 hz
  · have h := captureAndDetect_loopView cam
      { s with frameCountRef := s.frameCountRef + 1, currentFrame := s.frameCountRef + 1 }
    simp only [loopView, Prod.mk.injEq] at h
    simp [h]
  · simp
  · have h := captureAndDetect_loopView cam { s with frameCountRef := s.frameCountRef + 1 }
    simp only [loopView, Prod.mk.injEq] at h
    simp [h]
  · simp

theorem cancelIfScheduled_inactive (s : Detector) (h : s.pendingFrames = []) :
    cancelIfScheduled s = s := by
  unfold cancelIfScheduled cancelAnimationFrame
  split
  · split
    · simp [h]
      rw [← h]
    · rfl
  · rfl

theorem cancelIfScheduled_active (s : Detector) (id : Nat) (hid : 1 ≤ id)
    (hp : s.pendingFrames = [(id, s.frameSkip)]) (hr : s.animationRef = some id) :
    cancelIfScheduled s = { s with pendingFrames := [] } := by
  have hne : id ≠ 0 := by omega
  simp [cancelIfScheduled, cancelAnimationFrame, hr, hp, hne]

theorem runEffect_loopInv (s : Detector) (hn : 1 ≤ s.nextFrameId)
    (hp : s.pendingFrames = []) : LoopInv (runEffect s) := by
  unfold runEffect
  by_cases ha : s.isActive = true
  · simp only [ha, Bool.not_true, Bool.false_eq_true, if_false, requestAnimationFrame]
    refine ⟨by simp, ?_⟩
    simp only [ha, if_true]
    exact ⟨s.nextFrameId, hn, by simp, by simp [hp], rfl⟩
  · have ha2 : s.isActive = false := by simpa using ha
    simp only [ha2, Bool.not_false, if_true]
    rw [cancelIfScheduled_inactive s hp]
    exact ⟨hn, by simp [ha2, hp]⟩

theorem effectCleanup_clears (s : Detector) (h : LoopInv s) :
    (effectCleanup s.isActive s).pendingFrames = [] ∧
    (effectCleanup s.isActive s).nextFrameId = s.nextFrameId ∧
    (effectCleanup s.isActive s).frameCountRef = s.frameCountRef ∧
    (effectCleanup s.isActive s).sampleTicks = s.sampleTicks := by
  obtain ⟨hn, hI⟩ := h
  unfold effectCleanup
  by_cases ha : s.isActive = true
  · rw [if_pos ha] at hI
    obtain ⟨id, h1, _, hp, hr⟩ := hI
    simp only [ha, if_true]
    rw [cancelIfScheduled_active s id h1 hp hr]
    simp
  · have ha2 : s.isActive = false := by simpa using ha
    rw [if_neg ha] at hI
    simp [ha2, hI]

theorem step_loopInv (s : Detector) (e : Event) (h : LoopInv s) : LoopInv (step s e) := by
  cases e with
  | frame id cam =>
    cases hfind : s.pendingFrames.find? (fun p => p.1 == id) with
    | none => simpa [step, hfind] using h
    | some p =>
      simp only [step, hfind]
      obtain ⟨hn, hI⟩ := h
      by_cases ha : s.isActive = true
      · rw [if_pos ha] at hI
        obtain ⟨id0, h1, h2, hp, hr⟩ := hI
        rw [hp] at hfind
        by_cases hid : id0 = id
        · subst hid
          simp at hfind
          subst hfind
          have t1 : (cancelAnimationFrame id0 s).isActive = true := ha
          have t2 : (cancelAnimationFrame id0 s).frameSkip = s.frameSkip := rfl
          have t3 : (cancelAnimationFrame id0 s).pendingFrames = [] := by
            simp [cancelAnimationFrame, hp]
          have t5 : (cancelAnimationFrame id0 s).nextFrameId = s.nextFrameId := rfl
          obtain ⟨q1, q2, q3, q4, q5⟩ :=
            processFrame_loop s.frameSkip cam (cancelAnimationFrame id0 s)
          generalize cancelAnimationFrame id0 s = t at t1 t2 t3 t5 q1 q2 q3 q4 q5
          unfold LoopInv
          rw [q1, q2, q3, q4, q5, t1, t2, t3, t5]
          refine ⟨by omega, ?_⟩
          simp only [if_true]
          exact ⟨s.nextFrameId, hn, by omega, by simp, rfl⟩
        · simp [hid] at hfind
      · rw [if_neg ha] at hI
        simp [hI] at hfind
  | response o =>
    simp only [step]
    split_ifs
    · exact h
    · have hv := (captureAndDetectResume_loopView o s).1
      simp only [loopView, Prod.mk.injEq] at hv
      obtain ⟨v1, v2, v3, v4, v5, _⟩ := hv
      unfold LoopInv at h ⊢
      rw [v1, v2, v3, v4, v5]
      exact h
  | setIsActive b =>
    simp only [step]
    split_ifs
    · exact h
    · obtain ⟨c1, c2, _, _⟩ := effectCleanup_clears s h
      apply runEffect_loopInv
      · simpa [c2] using h.1
      · simpa using c1
  | setFrameSkip n =>
    simp only [step]
    split_ifs
    · exact h
    · obtain ⟨c1, c2, _, _⟩ := effectCleanup_clears s h
      apply runEffect_loopInv
      · simpa [c2] using h.1
      · simpa using c1

theorem loopInv_mount : LoopInv mount := by
  simp [LoopInv, mount]

theorem run_loopInv (es : List Event) (s : Detector) (h : LoopInv s) :
    LoopInv (run s es) := by
  induction es generalizing s with
  | nil => exact h
  | cons e es ih => exact ih _ (step_loopInv s e h)

/-- An inactive detector that satisfies the loop invariant stays inactive, runs no tick
and samples nothing under any event other than activation. -/
theorem step_inactive (s : Detector) (e : Event) (h : LoopInv s)
    (ha : s.isActive = false) (he : e ≠ Event.setIsActive true) :
    (step s e).isActive = false ∧ (step s e).pendingFrames = [] ∧
    (step s e).frameCountRef = s.frameCountRef ∧
    (step s e).sampleTicks = s.sampleTicks := by
  have hp : s.pendingFrames = [] := by
    have := h.2
    simpa [ha] using this
  cases e with
  | frame id cam => simp [step, hp, ha]
  | response o =>
    simp only [step]
    split_ifs
    · exact ⟨ha, hp, rfl, rfl⟩
    · obtain ⟨hv, hs⟩ := captureAndDetectResume_loopView o s
      simp only [loopView, Prod.mk.injEq] at hv
      obtain ⟨v1, _, v3, _, _, v6⟩ := hv
      exact ⟨by rw [v1, ha], by rw [v3, hp], v6, hs⟩
  | setIsActive b =>
    cases b with
    | true => exact absurd rfl he
    | false => simp [step, ha, hp]
  | setFrameSkip n =>
    simp only [step]
    split_ifs
    · exact ⟨ha, hp, rfl, rfl⟩
    · have hc : effectCleanup s.isActive s = s := by simp [effectCleanup, ha]
      rw [hc]
      have hr : runEffect { s with frameSkip := n } = { s with frameSkip := n } := by
        unfold runEffect
        simp only [ha, Bool.not_false, if_true]
        exact cancelIfScheduled_inactive _ hp
      rw [hr]
      exact ⟨ha, hp, rfl, rfl⟩

theorem run_inactive (es : List Event) (s : Detector) (h : LoopInv s)
    (ha : s.isActive = false) (he : ∀ e ∈ es, e ≠ Event.setIsActive true) :
    (run s es).isActive = false ∧ (run s es).pendingFrames = [] ∧
    (run s es).frameCountRef = s.frameCountRef ∧
    (run s es).sampleTicks = s.sampleTicks := by
  induction es generalizing s with
  | nil =>
    have hp : s.pendingFrames = [] := by
      have := h.2
      simpa [ha] using this
    exact ⟨ha, hp, rfl, rfl⟩
  | cons e es ih =>
    obtain ⟨a1, _, a3, a4⟩ := step_inactive s e h ha (he e (List.mem_cons_self _ _))
    obtain ⟨b1, b2, b3, b4⟩ := ih (step s e) (step_loopInv s e h) a1
      (fun x hx => he x (List.mem_cons_of_mem _ hx))
    exact ⟨b1, b2, b3.trans a3, b4.trans a4⟩

theorem step_deactivate (s : Detector) (h : LoopInv s) :
    (step s (Event.setIsActive false)).isActive = false := by
  simp only [step]
  split_ifs with hb
  · exact hb.symm
  · have ha : s.isActive = true := by
      cases hs : s.isActive
      · exact absurd hs.symm hb
      · rfl
    obtain ⟨c1, _, _, _⟩ := effectCleanup_clears s h
    unfold runEffect
    simp only [Bool.not_false, if_true]
    rw [cancelIfScheduled_inactive _ (by simpa using c1)]

/-- C9: after any history of events (whether or not it leaves a request outstanding),
once `isActive` is set to false the browser holds no animation-frame callback of the
loop, and as long as `isActive` is not set to true again, whatever frames fire,
responses arrive or slider changes happen, none is scheduled, `processFrame` does not run
(`frameCountRef` keeps its value) and no sample is attempted. -/
theorem C9_no_tick_after_deactivation (before after : List Event)
    (hafter : ∀ e ∈ after, e ≠ Event.setIsActive true) :
    (step (run mount before) (Event.setIsActive false)).pendingFrames = [] ∧
    (run (step (run mount before) (Event.setIsActive false)) after).isActive = false ∧
    (run (step (run mount before) (Event.setIsActive false)) after).pendingFrames = [] ∧
    (run (step (run mount before) (Event.setIsActive false)) after).frameCountRef =
      (step (run mount before) (Event.setIsActive false)).frameCountRef ∧
    (run (step (run mount before) (Event.setIsActive false)) after).sampleTicks =
      (step (run mount before) (Event.setIsActive false)).sampleTicks := by
  have h0 := run_loopInv before mount loopInv_mount
  have h1 := step_loopInv _ (Event.setIsActive false) h0
  have ha := step_deactivate _ h0
  obtain ⟨r1, r2, r3, r4⟩ := run_inactive after _ h1 ha hafter
  have hp : (step (run mount before) (Event.setIsActive false)).pendingFrames = [] := by
    have := h1.2
    simpa [ha] using this
  exact ⟨hp, r1, r2, r3, r4⟩

/-- C9 at a concrete run: stopped with the request of tick 30 outstanding, the detector
stays at `frameCountRef = 30` through stale frames, the late response and a slider
change. -/
theorem C9_no_tick_witness :
    (run mount thirtyFramesIn).outstanding = 1 ∧
    (run (step (run mount thirtyFramesIn) (Event.setIsActive false)) afterStop).frameCountRef
      = 30 ∧
    (run (step (run mount thirtyFramesIn) (Event.setIsActive false)) afterStop).pendingFrames
      = [] :=
  ⟨by decide,
   (C9_no_tick_after_deactivation thirtyFramesIn afterStop (by decide)).2.2.2.1.trans
     (by decide),
   (C9_no_tick_after_deactivation thirtyFramesIn afterStop (by decide)).2.2.1⟩

/-- C10, as stated, fails: the detector is stopped while the request of tick 30 is
outstanding; the successful response arriving afterwards raises `totalDetections` from 0
to 1, sets `currentStatus` to `good` and fills `lastDetection`. -/
theorem C10_counterexample :
    stoppedWhileBusy.isActive = false ∧ stoppedWhileBusy.outstanding = 1 ∧
    stoppedWhileBusy.detectionStats = initialStats ∧
    stoppedWhileBusy.lastDetection.isSome = false ∧
    (step stoppedWhileBusy (Event.response (Outcome.resolved goodPayload))).detectionStats =
      { totalDetections := 1, goodPostureCount := 1, badPostureCount := 0,
        currentStatus := "good" } ∧
    (step stoppedWhileBusy (Event.response (Outcome.resolved goodPayload))).lastDetection.isSome
      = true := by
  decide

/-- C10, amended: the response handler checks no activity flag.  A successful response
updates `detectionStats` and `lastDetection` whatever `isActive` is, so also when it
arrives after deactivation; it does not touch `isActive` or the scheduled frames, so a
stopped loop stays stopped. -/
theorem C10_response_applied_regardless (s : Detector) (data : DetectData)
    (hsuccess : data.success = true) :
    (captureAndDetectResume (Outcome.resolved data) s).detectionStats =
      updateStats data.overall_status s.detectionStats ∧
    (captureAndDetectResume (Outcome.resolved data) s).lastDetection =
      some { status := data.overall_status, detections := data.detections,
             confidence := (data.detections.bind List.head?).getD 0 } ∧
    (captureAndDetectResume (Outcome.resolved data) s).isActive = s.isActive ∧
    (captureAndDetectResume (Outcome.resolved data) s).pendingFrames = s.pendingFrames := by
  have hv := (captureAndDetectResume_loopView (Outcome.resolved data) s).1
  simp only [loopView, Prod.mk.injEq] at hv
  refine ⟨captureAndDetectResume_stats_success data s hsuccess, ?_, hv.1, hv.2.2.1⟩
  simp only [captureAndDetectResume, hsuccess, if_true, applySuccess]
  split <;> rfl

/-- C10 amended, at the late response of the stopped detector. -/
theorem C10_response_applied_witness :
    stoppedWhileBusy.isActive = false ∧ goodPayload.success = true ∧
    (captureAndDetectResume (Outcome.resolved goodPayload) stoppedWhileBusy).detectionStats =
      updateStats "good" stoppedWhileBusy.detectionStats ∧
    (captureAndDetectResume (Outcome.resolved goodPayload) stoppedWhileBusy).isActive = false :=
  ⟨by decide, rfl,
   (C10_response_applied_regardless stoppedWhileBusy goodPayload rfl).1,
   (C10_response_applied_regardless stoppedWhileBusy goodPayload rfl).2.2.1.trans (by decide)⟩

/-- C11: the in-flight flag is false once an invocation of `captureAndDetect` completes,
whatever the outcome (success payload, non-success payload, or any rejection: refused
connection, timeout, other error); on every run from mount, after a response event the
flag is clear and no request is outstanding. -/
theorem C11_flag_cleared_on_every_exit (es : List Event) (s : Detector) (o : Outcome) :
    (captureAndDetectResume o s).isProcessingRef = false ∧
    (captureAndDetectResume o s).isLoading = false ∧
    (step (run mount es) (Event.response o)).isProcessingRef = false ∧
    (step (run mount es) (Event.response o)).outstanding = 0 := by
  refine ⟨(captureAndDetectResume_flag o s).2, ?_, ?_, ?_⟩
  · unfold captureAndDetectResume
    cases o <;> simp
  · have h := run_flagTracks es mount flagTracksRequest_mount
    generalize run mount es = t at h
    unfold FlagTracksRequest at h
    simp only [step]
    split_ifs with h0
    · by_cases hp : t.isProcessingRef = true
      · simp [hp, h0] at h
      · simpa using hp
    · exact (captureAndDetectResume_flag o t).2
  · have h := run_flagTracks es mount flagTracksRequest_mount
    generalize run mount es = t at h
    unfold FlagTracksRequest at h
    simp only [step]
    split_ifs with h0
    · exact h0
    · rw [(captureAndDetectResume_flag o t).1, h]
      by_cases hp : t.isProcessingRef = true <;> simp [hp]

theorem captureAndDetect_stats (cam : Webcam) (s : Detector) :
    (captureAndDetect cam s).detectionStats = s.detectionStats ∧
    (captureAndDetect cam s).lastDetection = s.lastDetection ∧
    (captureAndDetect cam s).error = s.error := by
  unfold captureAndDetect
  rcases cam with _ | (_ | img)
  · simp
  · by_cases hp : s.isProcessingRef <;> simp [hp]
  · by_cases hp : s.isProcessingRef <;> by_cases hi : img = "" <;> simp [hp, hi]

/-- C12: a failed request leaves `detectionStats` as it was before the request, for
every prior value and every rejection (transport error, timeout, HTTP error): neither
issuing the request nor the failure handler touches the counters or `currentStatus`. -/
theorem C12_failure_keeps_stats (cam : Webcam) (s : Detector) (err : RequestError) :
    (captureAndDetectResume (Outcome.rejected err) (captureAndDetect cam s)).detectionStats =
      s.detectionStats ∧
    (captureAndDetectResume (Outcome.rejected err) s).detectionStats = s.detectionStats ∧
    (step s (Event.response (Outcome.rejected err))).detectionStats = s.detectionStats := by
  have hr : ∀ t : Detector,
      (captureAndDetectResume (Outcome.rejected err) t).detectionStats = t.detectionStats := by
    intro t
    simp [captureAndDetectResume]
  refine ⟨by rw [hr, (captureAndDetect_stats cam s).1], hr s, ?_⟩
  simp only [step]
  split_ifs
  · rfl
  · exact hr s

/-- C13, as stated, fails: with the timeout message in the error slot and the second
request outstanding, a resolved response whose payload has `success = false` and carries
an error text clears the error slot instead of setting a message. -/
theorem C13_counterexample :
    (run mount secondRequestAfterTimeout).error = some timeoutMessage ∧
    (run mount secondRequestAfterTimeout).outstanding = 1 ∧
    rejectedPayload.success = false ∧
    rejectedPayload.error = some "Model not loaded" ∧
    (step (run mount secondRequestAfterTimeout)
      (Event.response (Outcome.resolved rejectedPayload))).error = none := by
  decide

/-- C13, amended: a resolved response with a non-success payload is not classified as
an error.  The handler clears the error slot, as after every resolved response, ignores
the error text of the payload, and leaves `detectionStats`, `lastDetection` and the
reported results unchanged. -/
theorem C13_non_success_clears_error (s : Detector) (data : DetectData)
    (hfail : data.success = false) :
    (captureAndDetectResume (Outcome.resolved data) s).error = none ∧
    (captureAndDetectResume (Outcome.resolved data) s).detectionStats = s.detectionStats ∧
    (captureAndDetectResume (Outcome.resolved data) s).lastDetection = s.lastDetection ∧
    (captureAndDetectResume (Outcome.resolved data) s).reported = s.reported := by
  simp [captureAndDetectResume, hfail]

/-- C13 amended, at the payload with an error text. -/
theorem C13_non_success_witness :
    rejectedPayload.success = false ∧
    (captureAndDetectResume (Outcome.resolved rejectedPayload)
      (run mount secondRequestAfterTimeout)).error = none :=
  ⟨rfl, (C13_non_success_clears_error (run mount secondRequestAfterTimeout)
      rejectedPayload rfl).1⟩

/-- The updater of `detectionStats` on each kind of status: the total always grows by
one and no counter shrinks; `good` and `bad` raise their own counter only, any other
status neither. -/
theorem updateStats_counters (status : String) (prev : DetectionStats) :
    (updateStats status prev).totalDetections = prev.totalDetections + 1 ∧
    prev.goodPostureCount ≤ (updateStats status prev).goodPostureCount ∧
    prev.badPostureCount ≤ (updateStats status prev).badPostureCount ∧
    (status = "good" →
      (updateStats status prev).goodPostureCount = prev.goodPostureCount + 1 ∧
      (updateStats status prev).badPostureCount = prev.badPostureCount) ∧
    (status = "bad" →
      (updateStats status prev).badPostureCount = prev.badPostureCount + 1 ∧
      (updateStats status prev).goodPostureCount = prev.goodPostureCount) ∧
    (status ≠ "good" → status ≠ "bad" →
      (updateStats status prev).goodPostureCount = prev.goodPostureCount ∧
      (updateStats status prev).badPostureCount = prev.badPostureCount) := by
  have hgb : ¬ ("good" : String) = "bad" := by decide
  have hbg : ¬ ("bad" : String) = "good" := by decide
  refine ⟨rfl, ?_, ?_, ?_, ?_, ?_⟩
  · simp [updateStats]
  · simp [updateStats]
  · intro h
    simp [updateStats, h, hgb]
  · intro h
    simp [updateStats, h, hbg]
  · intro hg hb
    simp [updateStats, hg, hb]

/-- C14: for every prior stats value and every status a success response carries
(`good` or `bad`), the update in the response handler raises `totalDetections` by
exactly one and exactly one of `goodPostureCount` and `badPostureCount` by exactly one,
the other keeping its value; no counter decreases. -/
theorem C14_one_outcome_counter_increases (s : Detector) (data : DetectData)
    (hsuccess : data.success = true) (hdomain : data.statusInDomain) :
    (captureAndDetectResume (Outcome.resolved data) s).detectionStats.totalDetections =
      s.detectionStats.totalDetections + 1 ∧
    (((captureAndDetectResume (Outcome.resolved data) s).detectionStats.goodPostureCount =
          s.detectionStats.goodPostureCount + 1 ∧
        (captureAndDetectResume (Outcome.resolved data) s).detectionStats.badPostureCount =
          s.detectionStats.badPostureCount) ∨
      ((captureAndDetectResume (Outcome.resolved data) s).detectionStats.badPostureCount =
          s.detectionStats.badPostureCount + 1 ∧
        (captureAndDetectResume (Outcome.resolved data) s).detectionStats.goodPostureCount =
          s.detectionStats.goodPostureCount)) ∧
    ¬ ((captureAndDetectResume (Outcome.resolved data) s).detectionStats.goodPostureCount =
          s.detectionStats.goodPostureCount + 1 ∧
        (captureAndDetectResume (Outcome.resolved data) s).detectionStats.badPostureCount =
          s.detectionStats.badPostureCount + 1) ∧
    s.detectionStats.totalDetections ≤
      (captureAndDetectResume (Outcome.resolved data) s).detectionStats.totalDetections ∧
    s.detectionStats.goodPostureCount ≤
      (captureAndDetectResume (Outcome.resolved data) s).detectionStats.goodPostureCount ∧
    s.detectionStats.badPostureCount ≤
      (captureAndDetectResume (Outcome.resolved data) s).detectionStats.badPostureCount := by
  rw [captureAndDetectResume_stats_success data s hsuccess]
  obtain ⟨h1, h2, h3, h4, h5, _⟩ := updateStats_counters data.overall_status s.detectionStats
  refine ⟨h1, ?_, ?_, by omega, h2, h3⟩
  · rcases hdomain with hg | hb
    · exact Or.inl (h4 hg)
    · exact Or.inr (h5 hb)
  · rcases hdomain with hg | hb
    · have := (h4 hg).2
      omega
    · have := (h5 hb).2
      omega

/-- C14 at a `good` and at a `bad` payload applied to the initial stats. -/
theorem C14_one_outcome_counter_witness :
    (successPayload "good").statusInDomain ∧
    (captureAndDetectResume (Outcome.resolved (successPayload "good")) mount
      ).detectionStats = { totalDetections := 1, goodPostureCount := 1, badPostureCount := 0,
                           currentStatus := "good" } ∧
    (captureAndDetectResume (Outcome.resolved (successPayload "good")) mount
      ).detectionStats.totalDetections = mount.detectionStats.totalDetections + 1 ∧
    (captureAndDetectResume (Outcome.resolved (successPayload "bad")) mount
      ).detectionStats.totalDetections = mount.detectionStats.totalDetections + 1 :=
  ⟨by decide, by decide,
   (C14_one_outcome_counter_increases mount (successPayload "good") rfl (by decide)).1,
   (C14_one_outcome_counter_increases mount (successPayload "bad") rfl (by decide)).1⟩

theorem cancelIfScheduled_frameCount (s : Detector) :
    (cancelIfScheduled s).frameCountRef = s.frameCountRef := by
  unfold cancelIfScheduled cancelAnimationFrame
  split
  · split <;> rfl
  · rfl

theorem setIsActive_frameCount (s : Detector) (b : Bool) :
    (step s (Event.setIsActive b)).frameCountRef = s.frameCountRef := by
  simp only [step]
  split_ifs
  · rfl
  · unfold runEffect effectCleanup
    simp only
    split_ifs <;> simp [requestAnimationFrame, cancelIfScheduled_frameCount]

theorem setFrameSkip_frameCount (s : Detector) (n : Nat) :
    (step s (Event.setFrameSkip n)).frameCountRef = s.frameCountRef := by
  simp only [step]
  split_ifs
  · rfl
  · unfold runEffect effectCleanup
    simp only
    split_ifs <;> simp [requestAnimationFrame, cancelIfScheduled_frameCount]

theorem processFrame_frameCount (skip : Nat) (cam : Webcam) (s : Detector) :
    (processFrame skip cam s).frameCountRef = s.frameCountRef + 1 := by
  unfold processFrame
  simp only [requestAnimationFrame]
  split_ifs with h10 hz
  · have h := captureAndDetect_loopView cam
      { s with frameCountRef := s.frameCountRef + 1, currentFrame := s.frameCountRef + 1 }
    simp only [loopView, Prod.mk.injEq] at h
    simp [h]
  · rfl
  · have h := captureAndDetect_loopView cam { s with frameCountRef := s.frameCountRef + 1 }
    simp only [loopView, Prod.mk.injEq] at h
    simp [h]
  · rfl

theorem step_frameCount_le (s : Detector) (e : Event) :
    s.frameCountRef ≤ (step s e).frameCountRef := by
  cases e with
  | frame id cam =>
    simp only [step]
    split
    · exact le_refl _
    · rw [processFrame_frameCount]
      simp [cancelAnimationFrame]
  | response o =>
    simp only [step]
    split_ifs
    · exact le_refl _
    · have hv := (captureAndDetectResume_loopView o s).1
      simp only [loopView, Prod.mk.injEq] at hv
      exact le_of_eq hv.2.2.2.2.2.symm
  | setIsActive b => exact le_of_eq (setIsActive_frameCount s b).symm
  | setFrameSkip n => exact le_of_eq (setFrameSkip_frameCount s n).symm

/-- C15, as stated, fails: after three ticks the detector is stopped and started again;
`frameCountRef` is 3 after the stop, 3 after the restart, and the first tick after the
restart sees 4. -/
theorem C15_counterexample :
    (run mount [Event.setIsActive true, Event.frame 1 liveCam, Event.frame 2 liveCam,
      Event.frame 3 liveCam, Event.setIsActive false]).frameCountRef = 3 ∧
    (run mount restartAfterThree).isActive = true ∧
    (run mount restartAfterThree).frameCountRef = 3 ∧
    (run mount restartAfterThree).pendingFrames = [(5, 30)] ∧
    (step (run mount restartAfterThree) (Event.frame 5 liveCam)).frameCountRef = 4 := by
  decide

/-- C15, amended: `frameCountRef` is never reset.  An activation or deactivation of
`isActive` leaves it unchanged, no event lowers it, each run of `processFrame` raises it
by exactly one, and so the first tick after an activation sees the value reached before
the activation plus one; that is 1 only for the first activation after mounting. -/
theorem C15_counter_never_reset (s : Detector) (b : Bool) (e : Event) (skip : Nat)
    (cam : Webcam) :
    (step s (Event.setIsActive b)).frameCountRef = s.frameCountRef ∧
    s.frameCountRef ≤ (step s e).frameCountRef ∧
    (processFrame skip cam (step s (Event.setIsActive b))).frameCountRef =
      s.frameCountRef + 1 ∧
    (run mount [Event.setIsActive true, Event.frame 1 cam]).frameCountRef = 1 := by
  refine ⟨setIsActive_frameCount s b, step_frameCount_le s e, ?_, ?_⟩
  · rw [processFrame_frameCount, setIsActive_frameCount]
  · have h1 : run mount [Event.setIsActive true, Event.frame 1 cam] =
        step (step mount (Event.setIsActive true)) (Event.frame 1 cam) := rfl
    rw [h1]
    have h2 : (step mount (Event.setIsActive true)).pendingFrames = [(1, 30)] := by decide
    have h3 : (step mount (Event.setIsActive true)).frameCountRef = 0 := by decide
    generalize step mount (Event.setIsActive true) = t at h2 h3
    have h4 : step t (Event.frame 1 cam) = processFrame 30 cam (cancelAnimationFrame 1 t) := by
      simp [step, h2]
    rw [h4, processFrame_frameCount]
    simp [cancelAnimationFrame, h3]

/-- C18: when the capture handle is absent, or `getScreenshot()` returns null (or an
empty string), `captureAndDetect` is a no-op: apart from the record that it was called,
the detector is unchanged, so no request is issued, the in-flight flag, the error slot,
the loading flag, `detectionStats` and `lastDetection` keep their values, and with the
flag still clear the next tick at a multiple of `frameSkip` calls it again. -/
theorem C18_no_frame_is_noop (s : Detector) (skip : Nat) (cam : Webcam) :
    captureAndDetect none s = { s with sampleTicks := s.frameCountRef :: s.sampleTicks } ∧
    captureAndDetect (some none) s =
      { s with sampleTicks := s.frameCountRef :: s.sampleTicks } ∧
    captureAndDetect (some (some "")) s =
      { s with sampleTicks := s.frameCountRef :: s.sampleTicks } ∧
    ((captureAndDetect (some none) s).outstanding = s.outstanding ∧
      (captureAndDetect (some none) s).isProcessingRef = s.isProcessingRef ∧
      (captureAndDetect (some none) s).error = s.error ∧
      (captureAndDetect (some none) s).isLoading = s.isLoading ∧
      (captureAndDetect (some none) s).detectionStats = s.detectionStats ∧
      (captureAndDetect (some none) s).lastDetection = s.lastDetection) ∧
    (sampleAttempted skip cam (captureAndDetect (some none) s) ↔
      ((s.frameCountRef + 1) % skip = 0 ∧ s.isProcessingRef = false)) := by
  have h1 : captureAndDetect none s =
      { s with sampleTicks := s.frameCountRef :: s.sampleTicks } := rfl
  have h2 : captureAndDetect (some none) s =
      { s with sampleTicks := s.frameCountRef :: s.sampleTicks } := by
    unfold captureAndDetect
    by_cases hp : s.isProcessingRef <;> simp [hp]
  have h3 : captureAndDetect (some (some "")) s =
      { s with sampleTicks := s.frameCountRef :: s.sampleTicks } := by
    unfold captureAndDetect
    by_cases hp : s.isProcessingRef <;> simp [hp]
  refine ⟨h1, h2, h3, ?_, ?_⟩
  · rw [h2]
    exact ⟨rfl, rfl, rfl, rfl, rfl, rfl⟩
  · unfold sampleAttempted
    rw [processFrame_sampleTicks, h2]
    by_cases h : (s.frameCountRef + 1) % skip = 0 ∧ s.isProcessingRef = false
    · simp [h]
    · simp [h]

/-- C20: `handleMouseUp` ends the drag for every overlay state: it takes no pointer
position, the dragging flag is false afterwards and the position is untouched, and a
pointer move processed after it, wherever the pointer is, changes nothing. -/
theorem C20_mouse_up_ends_drag (vp : Viewport) (e : MouseEvent) (s : Overlay) :
    (handleMouseUp s).isDragging = false ∧
    (handleMouseUp s).position = s.position ∧
    handleMouseMove vp e (handleMouseUp s) = handleMouseUp s ∧
    (handleMouseMove vp e (handleMouseUp s)).position = s.position := by
  simp [handleMouseUp, handleMouseMove]

theorem multiples_apart (skip a b : Nat) (ha : a % skip = 0) (hb : b % skip = 0)
    (hlt : a < b) : a + skip ≤ b := by
  obtain ⟨k, rfl⟩ := Nat.dvd_of_mod_eq_zero ha
  obtain ⟨j, rfl⟩ := Nat.dvd_of_mod_eq_zero hb
  rcases Nat.eq_zero_or_pos skip with h0 | hpos
  · subst h0; simp at hlt
  · have hkj : k < j := lt_of_mul_lt_mul_left hlt (Nat.zero_le skip)
    calc skip * k + skip = skip * (k + 1) := by ring
      _ ≤ skip * j := Nat.mul_le_mul_left skip hkj

/-- One event that is no slider change keeps `frameSkip` and either records nothing or
records the incremented counter, which is then a multiple of `frameSkip`. -/
theorem step_sampleTicks (s : Detector) (e : Event) (h : LoopInv s)
    (he : e.changesFrameSkip = false) :
    (step s e).frameSkip = s.frameSkip ∧
    ((step s e).sampleTicks = s.sampleTicks ∨
      ((step s e).sampleTicks = (s.frameCountRef + 1) :: s.sampleTicks ∧
        (s.frameCountRef + 1) % s.frameSkip = 0 ∧
        (step s e).frameCountRef = s.frameCountRef + 1)) := by
  cases e with
  | frame id cam =>
    cases hfind : s.pendingFrames.find? (fun p => p.1 == id) with
    | none => simp [step, hfind]
    | some p =>
      simp only [step, hfind]
      obtain ⟨hn, hI⟩ := h
      by_cases ha : s.isActive = true
      · rw [if_pos ha] at hI
        obtain ⟨id0, h1, h2, hp, hr⟩ := hI
        rw [hp] at hfind
        by_cases hid : id0 = id
        · subst hid
          simp at hfind
          subst hfind
          refine ⟨(processFrame_loop _ _ _).2.1, ?_⟩
          rw [processFrame_sampleTicks, processFrame_frameCount]
          simp only [cancelAnimationFrame]
          by_cases hc : (s.frameCountRef + 1) % s.frameSkip = 0 ∧ s.isProcessingRef = false
          · right
            simp [hc]
          · left
            simp [hc]
        · simp [hid] at hfind
      · rw [if_neg ha] at hI
        simp [hI] at hfind
  | response o =>
    simp only [step]
    split_ifs
    · exact ⟨rfl, Or.inl rfl⟩
    · obtain ⟨hv, hs⟩ := captureAndDetectResume_loopView o s
      simp only [loopView, Prod.mk.injEq] at hv
      exact ⟨hv.2.1, Or.inl hs⟩
  | setIsActive b =>
    simp only [step]
    split_ifs
    · exact ⟨rfl, Or.inl rfl⟩
    · unfold runEffect effectCleanup cancelIfScheduled cancelAnimationFrame
      simp only [requestAnimationFrame]
      refine ⟨?_, Or.inl ?_⟩ <;> (repeat' split) <;> rfl
  | setFrameSkip n => simp [Event.changesFrameSkip] at he

theorem step_samplesSpaced (skip : Nat) (base : List Nat) (s : Detector) (e : Event)
    (h : LoopInv s) (he : e.changesFrameSkip = false) (hs : s.frameSkip = skip)
    (hsp : SamplesSpaced skip base s) :
    (step s e).frameSkip = skip ∧ SamplesSpaced skip base (step s e) := by
  obtain ⟨hk, hcase⟩ := step_sampleTicks s e h he
  have hmono := step_frameCount_le s e
  obtain ⟨new, hnew, hall, hpair⟩ := hsp
  refine ⟨hk.trans hs, ?_⟩
  rcases hcase with hsame | ⟨hadd, hmod, hfc⟩
  · exact ⟨new, by rw [hsame, hnew],
      fun t ht => ⟨(hall t ht).1, le_trans (hall t ht).2 hmono⟩, hpair⟩
  · rw [hs] at hmod
    refine ⟨(s.frameCountRef + 1) :: new, by rw [hadd, hnew]; rfl, ?_, ?_⟩
    · intro t ht
      rcases List.mem_cons.mp ht with rfl | ht
      · exact ⟨hmod, by omega⟩
      · exact ⟨(hall t ht).1, le_trans (hall t ht).2 hmono⟩
    · refine List.Pairwise.cons ?_ hpair
      intro t ht
      exact multiples_apart skip t (s.frameCountRef + 1) (hall t ht).1 hmod
        (by have := (hall t ht).2; omega)

theorem run_samplesSpaced (skip : Nat) (base : List Nat) (es : List Event) (s : Detector)
    (h : LoopInv s) (he : ∀ e ∈ es, e.changesFrameSkip = false) (hs : s.frameSkip = skip)
    (hsp : SamplesSpaced skip base s) : SamplesSpaced skip base (run s es) := by
  induction es generalizing s with
  | nil => exact hsp
  | cons e es ih =>
    obtain ⟨h1, h2⟩ := step_samplesSpaced skip base s e h (he e (List.mem_cons_self _ _)) hs hsp
    exact ih (step s e) (step_loopInv s e h)
      (fun x hx => he x (List.mem_cons_of_mem _ hx)) h1 h2

/-- C19: after any history, as long as the slider is not moved, the ticks on which
`captureAndDetect` is called lie at multiples of the decimation factor `frameSkip` and
any two of them are at least `frameSkip` ticks apart, whatever responses arrive or stay
outstanding in between (also across a stop and restart): the in-flight guard only
removes sample ticks. -/
theorem C19_samples_at_least_skip_apart (before during : List Event)
    (hfixed : ∀ e ∈ during, e.changesFrameSkip = false) :
    ∃ new, (run (run mount before) during).sampleTicks =
        new ++ (run mount before).sampleTicks ∧
      (∀ t ∈ new, t % (run mount before).frameSkip = 0) ∧
      new.Pairwise (fun later earlier => earlier + (run mount before).frameSkip ≤ later) := by
  have h0 := run_loopInv before mount loopInv_mount
  have hbase : SamplesSpaced (run mount before).frameSkip (run mount before).sampleTicks
      (run mount before) := ⟨[], rfl, by simp, List.Pairwise.nil⟩
  obtain ⟨new, hnew, hall, hpair⟩ := run_samplesSpaced _ _ during _ h0 hfixed rfl hbase
  exact ⟨new, hnew, fun t ht => (hall t ht).1, hpair⟩

/-- C19 at a concrete run with `frameSkip = 5`: of ten ticks, 5 and 10 are sampled. -/
theorem C19_samples_witness :
    (run (run mount [Event.setFrameSkip 5, Event.setIsActive true])
      tenFramesOneResponse).sampleTicks = [10, 5] ∧
    ∃ new, (run (run mount [Event.setFrameSkip 5, Event.setIsActive true])
        tenFramesOneResponse).sampleTicks =
        new ++ (run mount [Event.setFrameSkip 5, Event.setIsActive true]).sampleTicks ∧
      (∀ t ∈ new,
        t % (run mount [Event.setFrameSkip 5, Event.setIsActive true]).frameSkip = 0) ∧
      new.Pairwise (fun later earlier =>
        earlier + (run mount [Event.setFrameSkip 5, Event.setIsActive true]).frameSkip
          ≤ later) :=
  ⟨by decide,
   C19_samples_at_least_skip_apart [Event.setFrameSkip 5, Event.setIsActive true]
     tenFramesOneResponse (by decide)⟩

/-- C16 at the failing input: the overlay is enabled with the mirror open and the
thirtieth tick issues a detection request.  That call of `detectAndDraw` waits at its
`await`: the browser holds no animation frame of the loop, so no frame event runs a tick
or redraws the mirror until the request settles, and only then is the next tick
scheduled.  The loop of `PostureDetector` in the same situation has its next frame
pending. -/
theorem C16_sampling_tick_awaits_request (id : Nat) (cam : Webcam) :
    overlayBusy.frameCountRef = 30 ∧
    overlayBusy.isPiPActive = true ∧ overlayBusy.pipWindowRef = some 7 ∧
    overlayBusy.suspended.length = 1 ∧
    overlayBusy.pendingFrames = [] ∧
    OverlayLoop.step overlayBusy (LoopEvent.frame id cam) = overlayBusy ∧
    (OverlayLoop.step overlayBusy (LoopEvent.frame id cam)).redraws.length = 30 ∧
    (OverlayLoop.step overlayBusy
      (LoopEvent.response (Outcome.rejected axiosTimeoutError))).pendingFrames.length = 1 ∧
    ((run mount thirtyFramesIn).outstanding = 1 ∧
      (run mount thirtyFramesIn).pendingFrames = [(31, 30)]) := by
  have hp : overlayBusy.pendingFrames = [] := by decide
  have hstep : OverlayLoop.step overlayBusy (LoopEvent.frame id cam) = overlayBusy := by
    simp [OverlayLoop.step, hp]
  refine ⟨by decide, by decide, by decide, by decide, hp, hstep, ?_, by decide,
    by decide, by decide⟩
  rw [hstep]
  decide

/-- C17 at the failing input: in a browser without document picture-in-picture, with
`videoRef` empty, `startPiP` changes nothing and raises no message, whatever the other
capabilities are; when `requestWindow` rejects it does raise one alert and the mirror
stays closed. -/
theorem C17_startPiP_silent_without_capability (s : Overlay) (w : Option Nat)
    (enabled ok : Bool) :
    startPiP { hasDocumentPiP := false, requestWindow := w, videoRefSet := false,
               pictureInPictureEnabled := enabled, requestVideoOk := ok } s = s ∧
    (startPiP videoOnlyBrowser Overlay.initial).isPiPActive = false ∧
    (startPiP videoOnlyBrowser Overlay.initial).alerts = 0 ∧
    (startPiP rejectingBrowser Overlay.initial).mirrorClosed ∧
    (startPiP rejectingBrowser Overlay.initial).alerts = 1 := by
  refine ⟨by simp [startPiP], by decide, by decide, by decide, by decide⟩

/-- C21 at the failing input: the overlay is turned off while the request of tick 30 is
outstanding.  The cleanup finds no frame to cancel; when the request settles, the
suspended call of `detectAndDraw` runs on to `requestAnimationFrame`, so a frame of the
torn-down loop is pending although `isEnabled` is false, no later run of the effect
cancels it, and when it fires the tick runs and schedules the next one.  This holds for
every suspended call resumed while the overlay is off. -/
theorem C21_stale_loop_reschedules (c : LoopClosure) (o : Outcome) (s : OverlayLoop) :
    (overlayStoppedWhileBusy.isEnabled = false ∧
      overlayStoppedWhileBusy.suspended.length = 1 ∧
      overlayStoppedWhileBusy.pendingFrames = []) ∧
    (overlayAfterLateResponse.isEnabled = false ∧
      overlayAfterLateResponse.suspended = [] ∧
      overlayAfterLateResponse.pendingFrames =
        [(32, { generation := 2, isPiPActive := true, currentStatus := "unknown" })] ∧
      overlayAfterLateResponse.animationId = none) ∧
    (OverlayLoop.step overlayAfterLateResponse LoopEvent.otherDependency).pendingFrames =
      overlayAfterLateResponse.pendingFrames ∧
    ((OverlayLoop.step overlayAfterLateResponse (LoopEvent.frame 32 liveCam)).isEnabled = false ∧
      (OverlayLoop.step overlayAfterLateResponse (LoopEvent.frame 32 liveCam)).frameCountRef
        = 31 ∧
      (OverlayLoop.step overlayAfterLateResponse
        (LoopEvent.frame 32 liveCam)).pendingFrames.length = 1) ∧
    (OverlayLoop.resume c o { s with isEnabled := false }).pendingFrames =
      s.pendingFrames ++ [(s.nextFrameId, c)] := by
  refine ⟨by decide, by decide, by decide, by decide, ?_⟩
  unfold OverlayLoop.resume
  simp only
  split_ifs <;>
    simp [OverlayLoop.schedule, OverlayLoop.cleanup, OverlayLoop.runEffect]

end PostureGuard
